import Mathlib

/-!
# GVfsUDisks2Mount: a shallow embedding of `monitor/udisks2/gvfsudisks2mount.c`

The C object `GVfsUDisks2Mount` becomes a Lean structure with the same fields,
`NULL`-able pointers become `Option`, and every function that mutates the
object becomes a function returning the new object.  Signals, asynchronous
queries, RPC calls and spawned commands are recorded, in program order, in an
effect log, so that statements of the form "X is issued before Y" or "X is
issued once" are statements about that log.

External collaborators (GLib, GIO, the volume object, the udisks client) are
represented by the values their accessors return.
-/

namespace GVfsUDisks2

/-! ## Data model -/

/-- An icon value.  `g_icon_equal` compares icons by value. -/
structure GIcon where
  name : String
deriving DecidableEq, Repr

/-- A `GFile` location: built by `g_file_new_for_path` or `g_file_new_for_uri`. -/
inductive GFile where
  | for_path (path : String)
  | for_uri (uri : String)
deriving DecidableEq, Repr

/-- The system mount record, seen through the `g_unix_mount_*` accessors the
mount object calls on it. -/
structure GUnixMountEntry where
  guess_name : String
  device_path : String
  mount_path : String
  fs_type : String
  guess_should_display : Bool
deriving DecidableEq, Repr

/-- A pointer to a `GVfsUDisks2Volume` (owned by the volume monitor). -/
abbrev VolumePtr := Nat

/-- A udisks filesystem interface proxy, with the mount points it reports. -/
structure UDisksFilesystem where
  id : Nat
  mount_points : List String
deriving DecidableEq, Repr

/-- A udisks encrypted interface proxy. -/
structure UDisksEncrypted where
  id : Nat
deriving DecidableEq, Repr

/-- The D-Bus object behind an interface: the interfaces it exports. -/
structure UDisksObject where
  filesystem : Option UDisksFilesystem
  encrypted : Option UDisksEncrypted
deriving DecidableEq, Repr

/-- A udisks block interface proxy: `g_dbus_interface_get_object` of the block,
and, when `udisks_client_get_cleartext_block` finds a cleartext block for it,
the `g_dbus_interface_get_object` of that cleartext block. -/
structure UDisksBlock where
  object : Option UDisksObject
  cleartext_block : Option (Option UDisksObject)
deriving DecidableEq, Repr

/-- What the collaborators of a mount currently report: the `GVolume` interface
of each volume, the block device of each volume, and the helper
`gvfs_udisks2_utils_icon_from_fs_type` of `gvfsudisks2utils.c`. -/
structure World where
  volume_icon : VolumePtr → Option GIcon
  volume_name : VolumePtr → Option String
  volume_block : VolumePtr → Option UDisksBlock
  icon_from_fs_type : Option String → Option GIcon

/-- The fields of `struct _GVfsUDisks2Mount`, in declaration order. -/
structure GVfsUDisks2Mount where
  monitor : Nat
  volume : Option VolumePtr
  mount_entry : Option GUnixMountEntry
  root : Option GFile
  icon : Option GIcon
  name : Option String
  sort_key : Option String
  uuid : Option String
  device_file : Option String
  mount_path : Option String
  can_unmount : Bool
  mount_entry_name : Option String
  mount_entry_fs_type : Option String
  is_burn_mount : Bool
  autorun_icon : Option GIcon
  searched_for_autorun : Bool
  xdg_volume_info_name : Option String
  xdg_volume_info_icon : Option GIcon
  searched_for_xdg_volume_info : Bool
  bdmv_volume_info_name : Option String
  bdmv_volume_info_icon : Option GIcon
  searched_for_bdmv_volume_info : Bool
deriving DecidableEq, Repr

/-- The three metadata probes. -/
inductive Probe where
  | bdmv
  | xdg
  | autorun
deriving DecidableEq, Repr

/-- Observable actions of the mount object, in program order. -/
inductive MountEffect where
  /-- One of `g_vfs_mount_info_query_*` was called on the given root. -/
  | query (p : Probe) (root : Option GFile)
  /-- Signal "changed" on the mount. -/
  | changed
  /-- Signal "mount-changed" on the monitor. -/
  | mount_changed
  | volume_set_mount (v : VolumePtr)
  | volume_unset_mount (v : VolumePtr)
  /-- Handler `on_volume_changed` connected to the "changed" signal of `v`. -/
  | connect (v : VolumePtr)
  /-- All `on_volume_changed` handlers of this mount disconnected from `v`. -/
  | disconnect (v : VolumePtr)
deriving DecidableEq, Repr

/-- A mount object together with its surroundings: what the collaborators
report, which volumes have `on_volume_changed` connected, and the effect log. -/
structure MountSys where
  world : World
  mount : GVfsUDisks2Mount
  connected : List VolumePtr
  log : List MountEffect

/-! ## GLib helpers used by the mount object -/

/-- GLib `g_strcmp0`: a `strcmp` that accepts `NULL`, which sorts first. -/
def g_strcmp0 : Option String → Option String → Int
  | none, none => 0
  | none, some _ => -1
  | some _, none => 1
  | some a, some b => if a < b then -1 else if a = b then 0 else 1

/-- GIO `g_icon_equal`: two `NULL`s are equal, otherwise value equality. -/
def g_icon_equal : Option GIcon → Option GIcon → Bool
  | none, none => true
  | some a, some b => a == b
  | _, _ => false

/-- GIO `g_unix_mount_get_fs_type`; on `NULL` the precondition check returns
`NULL`. -/
def g_unix_mount_get_fs_type : Option GUnixMountEntry → Option String
  | none => none
  | some e => some e.fs_type

/-! ## The mount object -/

/-- The object right after `g_object_new`: every field zero. -/
def gvfs_udisks2_mount_init : GVfsUDisks2Mount where
  monitor := 0
  volume := none
  mount_entry := none
  root := none
  icon := none
  name := none
  sort_key := none
  uuid := none
  device_file := none
  mount_path := none
  can_unmount := false
  mount_entry_name := none
  mount_entry_fs_type := none
  is_burn_mount := false
  autorun_icon := none
  searched_for_autorun := false
  xdg_volume_info_name := none
  xdg_volume_info_icon := none
  searched_for_xdg_volume_info := false
  bdmv_volume_info_name := none
  bdmv_volume_info_icon := none
  searched_for_bdmv_volume_info := false

/-- The "in with the new" block of `update_mount`: the merged icon. -/
def update_mount_icon (w : World) (mount : GVfsUDisks2Mount) : Option GIcon :=
  match mount.volume with
  | some v =>
    if mount.bdmv_volume_info_icon != none then mount.bdmv_volume_info_icon
    else if mount.xdg_volume_info_icon != none then mount.xdg_volume_info_icon
    else if mount.autorun_icon != none then mount.autorun_icon
    else w.volume_icon v
  | none =>
    if mount.bdmv_volume_info_icon != none then mount.bdmv_volume_info_icon
    else if mount.xdg_volume_info_icon != none then mount.xdg_volume_info_icon
    else if mount.autorun_icon != none then mount.autorun_icon
    else w.icon_from_fs_type (g_unix_mount_get_fs_type mount.mount_entry)

/-- The "in with the new" block of `update_mount`: the merged name. -/
def update_mount_name (w : World) (mount : GVfsUDisks2Mount) : Option String :=
  match mount.volume with
  | some v =>
    if mount.bdmv_volume_info_name != none then mount.bdmv_volume_info_name
    else if mount.xdg_volume_info_name != none then mount.xdg_volume_info_name
    else w.volume_name v
  | none =>
    if mount.bdmv_volume_info_name != none then mount.bdmv_volume_info_name
    else if mount.xdg_volume_info_name != none then mount.xdg_volume_info_name
    else mount.mount_entry_name

/-- Result of `update_mount`: the updated object, the returned `changed`
flag, and the probe queries the call issued. -/
structure UpdateResult where
  mount : GVfsUDisks2Mount
  changed : Bool
  queries : List MountEffect

/-- The function `update_mount`. -/
def update_mount (w : World) (mount : GVfsUDisks2Mount) : UpdateResult :=
  -- save old values
  let old_can_unmount := mount.can_unmount
  let old_name := mount.name
  let old_icon := mount.icon
  -- reset
  let m0 := { mount with can_unmount := false, icon := none, name := none }
  -- in with the new (both branches set can_unmount)
  let m1 := { m0 with can_unmount := true,
                      icon := update_mount_icon w m0,
                      name := update_mount_name w m0 }
  -- compute whether something changed
  let changed := !((old_can_unmount == m1.can_unmount) &&
                   (g_strcmp0 old_name m1.name == 0) &&
                   g_icon_equal old_icon m1.icon)
  -- search for BDMV
  let q1 := if !m1.searched_for_bdmv_volume_info then [MountEffect.query Probe.bdmv m1.root] else []
  let m2 := { m1 with searched_for_bdmv_volume_info := true }
  -- search for .xdg-volume-info
  let q2 := if !m2.searched_for_xdg_volume_info then [MountEffect.query Probe.xdg m2.root] else []
  let m3 := { m2 with searched_for_xdg_volume_info := true }
  -- search for autorun.inf
  let q3 := if !m3.searched_for_autorun then [MountEffect.query Probe.autorun m3.root] else []
  let m4 := { m3 with searched_for_autorun := true }
  { mount := m4, changed := changed, queries := q1 ++ q2 ++ q3 }

/-- The function `emit_changed`. -/
def emit_changed (s : MountSys) : MountSys :=
  { s with log := s.log ++ [MountEffect.changed, MountEffect.mount_changed] }

/-- Run `update_mount` on the mount of `s`, logging the queries it issued. -/
def MountSys.update (s : MountSys) : MountSys × Bool :=
  let r := update_mount s.world s.mount
  ({ s with mount := r.mount, log := s.log ++ r.queries }, r.changed)

/-- The common tail of the probe callbacks and of `on_volume_changed`:
`if (update_mount (mount)) emit_changed (mount);`. -/
def update_and_notify (s : MountSys) : MountSys :=
  let r := s.update
  if r.2 then emit_changed r.1 else r.1

/-- The callback `got_autorun_info_cb`; `icon` is what the finish function
returned. -/
def got_autorun_info_cb (s : MountSys) (icon : Option GIcon) : MountSys :=
  update_and_notify { s with mount := { s.mount with autorun_icon := icon } }

/-- The callback `got_xdg_volume_info_cb`; `icon` is what the finish function
returned and `name` what it stored through its out-parameter. -/
def got_xdg_volume_info_cb (s : MountSys) (icon : Option GIcon) (name : Option String) :
    MountSys :=
  update_and_notify
    { s with mount := { s.mount with xdg_volume_info_icon := icon, xdg_volume_info_name := name } }

/-- The callback `got_bdmv_volume_info_cb`. -/
def got_bdmv_volume_info_cb (s : MountSys) (icon : Option GIcon) (name : Option String) :
    MountSys :=
  update_and_notify
    { s with mount := { s.mount with bdmv_volume_info_icon := icon, bdmv_volume_info_name := name } }

/-- The signal handler `on_volume_changed`. -/
def on_volume_changed (s : MountSys) : MountSys :=
  update_and_notify s

/-- The sort key printed by `gvfs_udisks2_mount_new` from `g_get_real_time ()`
with the `G_GINT64_FORMAT` conversion. -/
def sort_key_of (now : Int) : String :=
  "gvfs.time_detected_usec." ++ toString now

/-- The constructor `gvfs_udisks2_mount_new`.  `now` is the value
`g_get_real_time ()` returns.  The result is `none` for the C `NULL`. -/
def gvfs_udisks2_mount_new (w : World) (monitor : Nat) (mount_entry : Option GUnixMountEntry)
    (volume : Option VolumePtr) (now : Int) : Option MountSys :=
  -- Ignore internal mounts unless there's a volume
  if volume == none &&
      (match mount_entry with
       | some e => !e.guess_should_display
       | none => false) then
    none
  else
    let mount := { gvfs_udisks2_mount_init with monitor := monitor, sort_key := some (sort_key_of now) }
    let mount :=
      match mount_entry with
      | some e =>
        { mount with mount_entry := some e,
                     mount_entry_name := some e.guess_name,
                     device_file := some e.device_path,
                     mount_path := some e.mount_path,
                     root := some (GFile.for_path e.mount_path) }
      | none =>
        -- burn:/// mount (the only mounts we support with mount_entry == NULL)
        { mount with device_file := none,
                     mount_path := none,
                     root := some (GFile.for_uri "burn:///"),
                     is_burn_mount := true }
    -- need to set the volume only when the mount is fully constructed
    let mount := { mount with volume := volume }
    let s : MountSys := { world := w, mount := mount, connected := [], log := [] }
    let s :=
      match volume with
      | some v =>
        { s with connected := s.connected ++ [v],
                 log := s.log ++ [MountEffect.volume_set_mount v, MountEffect.connect v] }
      | none => s
    some s.update.1

/-- The function `gvfs_udisks2_mount_unmounted`. -/
def gvfs_udisks2_mount_unmounted (s : MountSys) : MountSys :=
  match s.mount.volume with
  | some v =>
    emit_changed
      { s with mount := { s.mount with volume := none },
               connected := s.connected.filter (fun x => x != v),
               log := s.log ++ [MountEffect.volume_unset_mount v, MountEffect.disconnect v] }
  | none => s

/-- The function `gvfs_udisks2_mount_unset_volume`; `volume` is a non-`NULL`
volume pointer or `NULL`. -/
def gvfs_udisks2_mount_unset_volume (s : MountSys) (volume : Option VolumePtr) : MountSys :=
  if s.mount.volume == volume then
    -- g_signal_handlers_disconnect_by_func (mount->volume, ...): on a NULL
    -- instance the GLib precondition check makes the call a no-op
    let s1 :=
      match s.mount.volume with
      | some v => { s with connected := s.connected.filter (fun x => x != v),
                           log := s.log ++ [MountEffect.disconnect v] }
      | none => s
    emit_changed { s1 with mount := { s1.mount with volume := none } }
  else s

/-- The function `gvfs_udisks2_mount_set_volume`. -/
def gvfs_udisks2_mount_set_volume (s : MountSys) (volume : Option VolumePtr) : MountSys :=
  if s.mount.volume != volume then
    let s1 := if s.mount.volume != none then gvfs_udisks2_mount_unset_volume s s.mount.volume else s
    let s2 := { s1 with mount := { s1.mount with volume := volume } }
    let s3 :=
      match volume with
      | some v =>
        { s2 with connected := s2.connected ++ [v],
                  log := s2.log ++ [MountEffect.volume_set_mount v, MountEffect.connect v] }
      | none => s2
    emit_changed s3.update.1
  else s

/-- The accessor `gvfs_udisks2_mount_get_uuid`. -/
def gvfs_udisks2_mount_get_uuid (mount : GVfsUDisks2Mount) : Option String :=
  mount.uuid

/-- The accessor `gvfs_udisks2_mount_has_uuid`. -/
def gvfs_udisks2_mount_has_uuid (mount : GVfsUDisks2Mount) (uuid : Option String) : Bool :=
  g_strcmp0 mount.uuid uuid == 0

/-- What can happen to a mount object after construction. -/
inductive MountOp where
  /-- The volume `v` now reports the given icon and name and emits "changed";
  every connected `on_volume_changed` handler runs. -/
  | volume_changed (v : VolumePtr) (icon : Option GIcon) (name : Option String)
  | set_volume (volume : Option VolumePtr)
  | unset_volume (volume : Option VolumePtr)
  | unmounted
  | got_bdmv (icon : Option GIcon) (name : Option String)
  | got_xdg (icon : Option GIcon) (name : Option String)
  | got_autorun (icon : Option GIcon)

/-- The world after volume `v` changed what it reports. -/
def World.set_volume (w : World) (v : VolumePtr) (icon : Option GIcon) (name : Option String) :
    World :=
  { w with volume_icon := fun x => if x = v then icon else w.volume_icon x,
           volume_name := fun x => if x = v then name else w.volume_name x }

/-- One operation on a mount object. -/
def MountSys.apply (s : MountSys) : MountOp → MountSys
  | MountOp.volume_changed v icon name =>
    let s1 := { s with world := s.world.set_volume v icon name }
    ((s.connected.filter (fun x => x == v)).foldl (fun acc _ => on_volume_changed acc) s1)
  | MountOp.set_volume volume => gvfs_udisks2_mount_set_volume s volume
  | MountOp.unset_volume volume => gvfs_udisks2_mount_unset_volume s volume
  | MountOp.unmounted => gvfs_udisks2_mount_unmounted s
  | MountOp.got_bdmv icon name => got_bdmv_volume_info_cb s icon name
  | MountOp.got_xdg icon name => got_xdg_volume_info_cb s icon name
  | MountOp.got_autorun icon => got_autorun_info_cb s icon

/-- A sequence of operations on a mount object. -/
def MountSys.run (s : MountSys) (ops : List MountOp) : MountSys :=
  ops.foldl MountSys.apply s

/-- The first present value of a priority list. -/
def first_present {α : Type} : List (Option α) → Option α
  | [] => none
  | some a :: _ => some a
  | none :: rest => first_present rest

/-- Number of times probe `p` has been queried in a log. -/
def query_count (p : Probe) (log : List MountEffect) : Nat :=
  (log.filter (fun e => match e with
    | MountEffect.query q _ => q == p
    | _ => false)).length

/-! ## The unmount operation -/

/-- A `GError`: domain, code and message. -/
structure GError where
  domain : String
  code : Int
  message : String
deriving DecidableEq, Repr

/-- The `G_IO_ERROR` domain. -/
def G_IO_ERROR : String := "g-io-error-quark"

/-- `GIOErrorEnum` value `G_IO_ERROR_FAILED`. -/
def G_IO_ERROR_FAILED : Int := 0

/-- `GIOErrorEnum` value `G_IO_ERROR_BUSY`. -/
def G_IO_ERROR_BUSY : Int := 26

/-- `GIOErrorEnum` value `G_IO_ERROR_FAILED_HANDLED`. -/
def G_IO_ERROR_FAILED_HANDLED : Int := 30

/-- `GMountUnmountFlags` value `G_MOUNT_UNMOUNT_FORCE`. -/
def G_MOUNT_UNMOUNT_FORCE : Nat := 1

/-- The enumeration `GMountOperationResult`. -/
inductive GMountOperationResult where
  | HANDLED
  | ABORTED
  | UNHANDLED
deriving DecidableEq, Repr

/-- The caller's `GMountOperation` handle; `is_eject` is the value of its
"x-udisks2-is-eject" data key. -/
structure GMountOperation where
  id : Nat
  is_eject : Bool
deriving DecidableEq, Repr

/-- The callback given to `gvfs_udisks2_utils_spawn`. -/
inductive SpawnCallback where
  | umount_command_cb
  | lsof_command_cb
deriving DecidableEq, Repr

/-- Observable actions of an unmount request, in program order. -/
inductive Effect where
  /-- Signal "mount-pre-unmount" on the monitor. -/
  | pre_unmount
  /-- Call `udisks_filesystem_call_unmount` with the given options map. -/
  | call_unmount (filesystem : UDisksFilesystem) (options : List (String × Bool))
  /-- Call `udisks_encrypted_call_lock` with the given options map. -/
  | call_lock (encrypted : UDisksEncrypted) (options : List (String × Bool))
  /-- Call `gvfs_udisks2_utils_spawn` with a timeout and the printed command line. -/
  | spawn (timeout_seconds : Nat) (command_line : String) (callback : SpawnCallback)
  /-- Call `gvfs_udisks2_volume_monitor_update`. -/
  | monitor_update
  /-- Call `g_simple_async_result_complete` (or `_complete_in_idle`): the
  terminal result, with the error the result object carries, goes to the
  caller. -/
  | complete (in_idle : Bool) (error : Option GError)
  /-- Signal "show-processes" emitted on the mount operation. -/
  | show_processes (op : GMountOperation) (message : String) (processes : List Int)
      (choices : List String)
  /-- Signal "aborted" emitted on the mount operation. -/
  | aborted (op : GMountOperation)
  | connect_reply (handler_id : Nat)
  | disconnect_reply (handler_id : Nat)
  | timeout_add_seconds (seconds : Nat) (source_id : Nat)
  | source_remove (source_id : Nat)
  /-- The operation context was released with `g_free`. -/
  | data_free
  /-- A callback ran on an operation context that was already released. -/
  | use_after_free
  /-- A call of `g_assert` failed: the process aborts. -/
  | assertion_failed
  /-- A printf-style call met a conversion for which no argument was passed. -/
  | missing_format_argument
deriving DecidableEq, Repr

/-- An asynchronous call whose completion callback has not run yet. -/
inductive Pending where
  | unmount_rpc (filesystem : UDisksFilesystem)
  | umount_command
  | lsof_command
  | lock_rpc (encrypted : UDisksEncrypted)
deriving DecidableEq, Repr

/-- The fields of `UnmountData`.  `simple_error` is the error stored in the
result object `simple`. -/
structure UnmountData where
  ref_count : Int
  simple_error : Option GError
  completed : Bool
  mount : GVfsUDisks2Mount
  encrypted : Option UDisksEncrypted
  filesystem : Option UDisksFilesystem
  cancellable : Option Nat
  mount_operation : Option GMountOperation
  flags : Nat
  mount_op_reply_handler_id : Nat
  retry_unmount_timer_id : Nat
deriving DecidableEq, Repr

/-- An unmount request in flight: the operation context, whether it has been
released, the outstanding asynchronous calls, the live timeout sources, the
live "reply" handler connections, the counter from which GLib hands out
handler and source ids, and the effect log. -/
structure UnmountSys where
  data : UnmountData
  freed : Bool
  pending : List Pending
  timers : List Nat
  handlers : List Nat
  next_id : Nat
  log : List Effect
deriving DecidableEq, Repr

/-- Append effects to the log. -/
def UnmountSys.emit (s : UnmountSys) (es : List Effect) : UnmountSys :=
  { s with log := s.log ++ es }

/-- What `gvfs_udisks2_utils_spawn_finish` reports: failure with an error, or
the wait status and the captured output stream the callback asked for. -/
inductive SpawnResult (α : Type) where
  | error (e : GError)
  | finished (exit_status : Nat) (output : α)
deriving DecidableEq, Repr

/-- The `sys/wait.h` test `WIFEXITED`. -/
def WIFEXITED (status : Nat) : Bool := status % 128 == 0

/-- The `sys/wait.h` accessor `WEXITSTATUS`. -/
def WEXITSTATUS (status : Nat) : Nat := (status / 256) % 256

/-- C `strstr (haystack, needle) != NULL`. -/
def strstr (haystack needle : List Char) : Bool :=
  haystack.tails.any (fun t => needle.isPrefixOf t)

/-- Three octal digits of a byte. -/
def octal3 (b : Nat) : List Char :=
  [Char.ofNat (48 + b / 64 % 8), Char.ofNat (48 + b / 8 % 8), Char.ofNat (48 + b % 8)]

/-- GLib `g_strescape (source, NULL)` on one byte. -/
def g_strescape_byte (b : Nat) : List Char :=
  if b = 8 then ['\\', 'b']
  else if b = 12 then ['\\', 'f']
  else if b = 10 then ['\\', 'n']
  else if b = 13 then ['\\', 'r']
  else if b = 9 then ['\\', 't']
  else if b = 11 then ['\\', 'v']
  else if b = 92 then ['\\', '\\']
  else if b = 34 then ['\\', '"']
  else if b < 32 ∨ 127 ≤ b then '\\' :: octal3 b
  else [Char.ofNat b]

/-- GLib `g_strescape (source, NULL)`, byte by byte over the UTF-8 encoding. -/
def g_strescape (source : String) : String :=
  String.mk (source.data.flatMap (fun c =>
    (String.utf8EncodeChar c).flatMap (fun b => g_strescape_byte b.toNat)))

/-- How the C library prints a string argument with "%s": `NULL` prints as
"(null)". -/
def print_s : Option String → String
  | none => "(null)"
  | some s => s

/-- A printf-style format printed with an empty argument list: ordinary
characters are copied and "%%" prints one percent sign.  Any other conversion
would read an argument that was not passed; the text printed so far is
returned with the flag set.  A percent sign followed by a character that
starts no valid conversion (such as "%:"), which the C library may copy
unchanged, is not told apart from that case. -/
def format_no_args : List Char → List Char × Bool
  | [] => ([], false)
  | '%' :: '%' :: rest =>
    let r := format_no_args rest
    ('%' :: r.1, r.2)
  | '%' :: _ => ([], true)
  | c :: rest =>
    let r := format_no_args rest
    (c :: r.1, r.2)

/-- C `isspace` in the "C" locale. -/
def isspace (c : Char) : Bool :=
  c == ' ' || c == '\t' || c == '\n' || c == Char.ofNat 11 || c == Char.ofNat 12 || c == '\r'

/-- The largest `long` (64 bit). -/
def LONG_MAX : Int := 9223372036854775807

/-- The smallest `long` (64 bit). -/
def LONG_MIN : Int := -9223372036854775808

/-- C `strtol (p, &endp, 10)`: the value, and `endp` as the rest of the
string.  Without digits nothing is converted: the value is 0 and `endp` is
`p`.  Out-of-range values are clamped. -/
def strtol (p : List Char) : Int × List Char :=
  let q := p.dropWhile isspace
  let sr : Bool × List Char :=
    match q with
    | '-' :: r => (true, r)
    | '+' :: r => (false, r)
    | _ => (false, q)
  let digits := sr.2.takeWhile Char.isDigit
  if digits.isEmpty then (0, p)
  else
    let n : Nat := digits.foldl (fun acc c => acc * 10 + (c.toNat - 48)) 0
    let v : Int := if sr.1 then -(n : Int) else (n : Int)
    let v := if v > LONG_MAX then LONG_MAX else if v < LONG_MIN then LONG_MIN else v
    (v, sr.2.dropWhile Char.isDigit)

/-- Conversion of a `long` to `GPid` (a 32-bit `int`). -/
def long_to_pid (v : Int) : Int :=
  (v + 2147483648) % 4294967296 - 2147483648

/-- The parsing loop of `lsof_command_cb`; `fuel` bounds the number of
iterations.  The pointer test `p == endp` is a test on the remaining length. -/
def parse_pids_loop : Nat → List Char → List Int
  | 0, _ => []
  | fuel + 1, p =>
    if p.isEmpty then []
    else
      let r := strtol p
      let pid := long_to_pid r.1
      if pid == 0 && r.2.length == p.length then []
      else pid :: parse_pids_loop fuel r.2

/-- The process list `lsof_command_cb` builds from the standard output.  Every
iteration that continues consumes a character, so the fuel is never used up. -/
def parse_pids (standard_output : String) : List Int :=
  parse_pids_loop (standard_output.length + 1) standard_output.data

/-- GLib hands out a fresh non-zero id (signal handler or event source). -/
def UnmountSys.fresh_id (s : UnmountSys) : Nat := s.next_id + 1

/-- The function `unmount_data_ref`. -/
def unmount_data_ref (s : UnmountSys) : UnmountSys :=
  { s with data := { s.data with ref_count := s.data.ref_count + 1 } }

/-- The function `unmount_data_unref`: when the count reaches zero the prompt
is told to go away, the retry timer is removed and the context is released. -/
def unmount_data_unref (s : UnmountSys) : UnmountSys :=
  let s := { s with data := { s.data with ref_count := s.data.ref_count - 1 } }
  if s.data.ref_count == 0 then
    let s :=
      if s.data.mount_op_reply_handler_id > 0 then
        -- make the operation dialog go away
        match s.data.mount_operation with
        | some op =>
          { s with handlers := s.handlers.filter (fun h => h != s.data.mount_op_reply_handler_id),
                   log := s.log ++ [Effect.aborted op,
                                    Effect.disconnect_reply s.data.mount_op_reply_handler_id] }
        | none => s
      else s
    let s :=
      if s.data.retry_unmount_timer_id > 0 then
        { s with timers := s.timers.filter (fun t => t != s.data.retry_unmount_timer_id),
                 log := s.log ++ [Effect.source_remove s.data.retry_unmount_timer_id],
                 data := { s.data with retry_unmount_timer_id := 0 } }
      else s
    { s with data := { s.data with cancellable := none, mount_operation := none,
                                   encrypted := none, filesystem := none },
             freed := true,
             log := s.log ++ [Effect.data_free] }
  else s

/-- The three statements that end a request:
`g_simple_async_result_complete (data->simple); data->completed = TRUE;
unmount_data_unref (data);`. -/
def complete_and_unref (s : UnmountSys) (in_idle : Bool) : UnmountSys :=
  let s := s.emit [Effect.complete in_idle s.data.simple_error]
  unmount_data_unref { s with data := { s.data with completed := true } }

/-- The call `g_simple_async_result_take_error` / `_set_error`. -/
def set_error (s : UnmountSys) (e : GError) : UnmountSys :=
  { s with data := { s.data with simple_error := some e } }

/-- The command line `unmount_do` prints from "umount %s \"%s\"". -/
def umount_command_line (force : Bool) (mount_path : Option String) : String :=
  "umount " ++ (if force then "-l " else "") ++ " \"" ++
    print_s (mount_path.map g_strescape) ++ "\""

/-- The command line `unmount_show_busy` prints from "lsof -t \"%s\"". -/
def lsof_command_line (mount_point : Option String) : String :=
  "lsof -t \"" ++ print_s (mount_point.map g_strescape) ++ "\""

/-- The options map `unmount_do` builds for the unmount RPC. -/
def unmount_options (data : UnmountData) (force : Bool) : List (String × Bool) :=
  (if data.mount_operation == none then [("auth.no_user_interaction", true)] else []) ++
  (if force || (data.flags &&& G_MOUNT_UNMOUNT_FORCE) != 0 then [("force", true)] else [])

/-- The function `unmount_do`. -/
def unmount_do (s : UnmountSys) (force : Bool) : UnmountSys :=
  match s.data.filesystem with
  | none =>
    -- Use the umount(8) command if there is no block device / filesystem
    { s with pending := s.pending ++ [Pending.umount_command],
             log := s.log ++ [Effect.spawn 10 (umount_command_line force s.data.mount.mount_path)
                                SpawnCallback.umount_command_cb] }
  | some fs =>
    { s with pending := s.pending ++ [Pending.unmount_rpc fs],
             log := s.log ++ [Effect.call_unmount fs (unmount_options s.data force)] }

/-- The function `unmount_show_busy`. -/
def unmount_show_busy (s : UnmountSys) (mount_point : Option String) : UnmountSys :=
  let s := unmount_data_ref s
  { s with pending := s.pending ++ [Pending.lsof_command],
           log := s.log ++ [Effect.spawn 10 (lsof_command_line mount_point)
                              SpawnCallback.lsof_command_cb] }

/-- The timer callback `on_retry_timer_cb`, for the timeout source
`source_id`; returning `FALSE` removes the source. -/
def on_retry_timer_cb (s : UnmountSys) (source_id : Nat) : UnmountSys :=
  let s := { s with timers := s.timers.filter (fun t => t != source_id) }
  if s.freed then s.emit [Effect.use_after_free]
  else if s.data.retry_unmount_timer_id == 0 then s
  else
    -- timeout expired => try again
    unmount_do { s with data := { s.data with retry_unmount_timer_id := 0 } } false

/-- The error `on_mount_op_reply` sets for an aborted or cancelled prompt. -/
def failed_handled_error : GError :=
  { domain := G_IO_ERROR, code := G_IO_ERROR_FAILED_HANDLED,
    message := "GMountOperation aborted (user should never see this " ++
               "error since it is G_IO_ERROR_FAILED_HANDLED)" }

/-- The error `on_mount_op_reply` sets when the prompt was not handled. -/
def busy_programs_error : GError :=
  { domain := G_IO_ERROR, code := G_IO_ERROR_BUSY,
    message := "One or more programs are preventing the unmount operation." }

/-- The first statements of `on_mount_op_reply`: disconnect the signal handler
and clear its id. -/
def disconnect_reply_handler (s : UnmountSys) : UnmountSys :=
  { s with handlers := s.handlers.filter (fun h => h != s.data.mount_op_reply_handler_id),
           log := s.log ++ [Effect.disconnect_reply s.data.mount_op_reply_handler_id],
           data := { s.data with mount_op_reply_handler_id := 0 } }

/-- The signal handler `on_mount_op_reply`; `choice` is what
`g_mount_operation_get_choice` returns. -/
def on_mount_op_reply (s : UnmountSys) (result : GMountOperationResult) (choice : Int) :
    UnmountSys :=
  if s.freed then s.emit [Effect.use_after_free]
  else
    -- disconnect the signal handler
    let s := disconnect_reply_handler s
    if result == GMountOperationResult.ABORTED ||
        (result == GMountOperationResult.HANDLED && choice == 1) then
      -- don't show an error dialog here
      complete_and_unref (set_error s failed_handled_error) true
    else if result == GMountOperationResult.HANDLED then
      -- user chose force unmount => try again with force_unmount==TRUE
      unmount_do s true
    else
      -- result == G_MOUNT_OPERATION_UNHANDLED
      complete_and_unref (set_error s busy_programs_error) true

/-- The process list of `lsof_command_cb`: empty when the command could not be
run or did not exit normally with status 0. -/
def lsof_processes : SpawnResult String → List Int
  | SpawnResult.error _ => []
  | SpawnResult.finished exit_status standard_output =>
    if !(WIFEXITED exit_status && WEXITSTATUS exit_status == 0) then []
    else parse_pids standard_output

/-- The block of `lsof_command_cb` guarded by `if (!data->completed)`: connect
the reply handler once, emit "show-processes", arm the retry timer once.  With
a `NULL` mount operation the GLib precondition checks turn the data lookup,
the signal connection and the signal emission into no-ops (the connection
returns handler id 0). -/
def show_processes_prompt (s : UnmountSys) (processes : List Int) : UnmountSys :=
  let is_eject :=
    match s.data.mount_operation with
    | some op => op.is_eject
    | none => false
  let s :=
    if s.data.mount_op_reply_handler_id == 0 then
      match s.data.mount_operation with
      | some _ =>
        { s with handlers := s.handlers ++ [s.fresh_id],
                 next_id := s.fresh_id,
                 log := s.log ++ [Effect.connect_reply s.fresh_id],
                 data := { s.data with mount_op_reply_handler_id := s.fresh_id } }
      | none => s
    else s
  let choices := [if is_eject then "Eject Anyway" else "Unmount Anyway", "Cancel"]
  let message := "Volume is busy\n" ++
                 "One or more applications are keeping the volume busy."
  let s :=
    match s.data.mount_operation with
    | some op => s.emit [Effect.show_processes op message processes choices]
    | none => s
  -- set up a timer to try unmounting every two seconds
  if s.data.retry_unmount_timer_id == 0 then
    { s with timers := s.timers ++ [s.fresh_id],
             next_id := s.fresh_id,
             log := s.log ++ [Effect.timeout_add_seconds 2 s.fresh_id],
             data := { s.data with retry_unmount_timer_id := s.fresh_id } }
  else s

/-- The callback `lsof_command_cb`. -/
def lsof_command_cb (s : UnmountSys) (res : SpawnResult String) : UnmountSys :=
  if s.freed then s.emit [Effect.use_after_free]
  else
    let processes := lsof_processes res
    let s := if !s.data.completed then show_processes_prompt s processes else s
    unmount_data_unref s -- return ref

/-- The callback `lock_cb`; `error` is what
`udisks_encrypted_call_lock_finish` reported. -/
def lock_cb (s : UnmountSys) (error : Option GError) : UnmountSys :=
  if s.freed then s.emit [Effect.use_after_free]
  else
    let s :=
      match error with
      | some e => set_error s e
      | none => s
    complete_and_unref s false

/-- The callback `unmount_cb` of the unmount RPC issued on `filesystem`;
`error` is what `udisks_filesystem_call_unmount_finish` reported, after
`gvfs_udisks2_utils_udisks_error_to_gio_error`. -/
def unmount_cb (s : UnmountSys) (filesystem : UDisksFilesystem) (error : Option GError) :
    UnmountSys :=
  if s.freed then s.emit [Effect.use_after_free]
  else
    match error with
    | some e =>
      -- if the user passed in a GMountOperation, then do the
      -- GMountOperation::show-processes dance ...
      if e.code == G_IO_ERROR_BUSY && s.data.mount_operation != none then
        unmount_show_busy s filesystem.mount_points.head?
      else
        complete_and_unref (set_error s e) false
    | none =>
      let s := s.emit [Effect.monitor_update]
      match s.data.encrypted with
      | some enc =>
        { s with pending := s.pending ++ [Pending.lock_rpc enc],
                 log := s.log ++ [Effect.call_lock enc []] }
      | none => complete_and_unref s false

/-- The callback `umount_command_cb`; the captured stream is the standard
error. -/
def umount_command_cb (s : UnmountSys) (res : SpawnResult (Option String)) : UnmountSys :=
  if s.freed then s.emit [Effect.use_after_free]
  else
    match res with
    | SpawnResult.error e => complete_and_unref (set_error s e) false
    | SpawnResult.finished exit_status standard_error =>
      if WIFEXITED exit_status && WEXITSTATUS exit_status == 0 then
        complete_and_unref (s.emit [Effect.monitor_update]) false
      else if (match standard_error with
               | some err => strstr err.data "device is busy".data ||
                             strstr err.data "target is busy".data
               | none => false) then
        unmount_show_busy s s.data.mount.mount_path
      else
        -- g_simple_async_result_set_error with standard_error as the format;
        -- a NULL format fails the precondition check and sets nothing
        let s :=
          match standard_error with
          | some err =>
            let printed := format_no_args err.data
            let s := if printed.2 then s.emit [Effect.missing_format_argument] else s
            set_error s { domain := G_IO_ERROR, code := G_IO_ERROR_FAILED,
                          message := String.mk printed.1 }
          | none => s
        complete_and_unref s false

/-- Outcome of the identification block of
`gvfs_udisks2_mount_unmount_with_operation`. -/
inductive Identified where
  /-- Identification failed: the request completes with this message. -/
  | error (message : String)
  /-- The `g_assert (data->filesystem != NULL)` failed. -/
  | assertion_failed (encrypted : Option UDisksEncrypted)
  /-- Identification went through with these handles. -/
  | ok (filesystem : Option UDisksFilesystem) (encrypted : Option UDisksEncrypted)
deriving DecidableEq, Repr

/-- The identification block of `gvfs_udisks2_mount_unmount_with_operation`:
from the block device of the volume to the filesystem and encrypted handles. -/
def identify (w : World) (mount : GVfsUDisks2Mount) : Identified :=
  let block :=
    match mount.volume with
    | some v => w.volume_block v
    | none => none
  match block with
  | none => Identified.ok none none
  | some block =>
    match block.object with
    | none => Identified.error "No object for D-Bus interface"
    | some object =>
      match object.filesystem with
      | some fs => Identified.ok (some fs) none
      | none =>
        match object.encrypted with
        | none => Identified.error "No filesystem or encrypted interface on D-Bus object"
        | some enc =>
          match block.cleartext_block with
          | some cleartext_object =>
            -- the client hands out cleartext blocks of live objects only; a cleartext
            -- block without a D-Bus object, on which the C code would dereference
            -- NULL, is not told apart here from one whose object lacks the interface
            match cleartext_object.bind (fun o => o.filesystem) with
            | none =>
              Identified.error "No filesystem interface on D-Bus object for cleartext device"
            | some fs => Identified.ok (some fs) (some enc)
          | none => Identified.assertion_failed (some enc)

/-- The function `gvfs_udisks2_mount_unmount_with_operation`: the state right
after the call returns. -/
def gvfs_udisks2_mount_unmount_with_operation (w : World) (mount : GVfsUDisks2Mount)
    (flags : Nat) (mount_operation : Option GMountOperation) (cancellable : Option Nat) :
    UnmountSys :=
  let data : UnmountData :=
    { ref_count := 1, simple_error := none, completed := false, mount := mount,
      encrypted := none, filesystem := none, cancellable := cancellable,
      mount_operation := mount_operation, flags := flags,
      mount_op_reply_handler_id := 0, retry_unmount_timer_id := 0 }
  -- first emit the ::mount-pre-unmount signal
  let s : UnmountSys :=
    { data := data, freed := false, pending := [], timers := [], handlers := [],
      next_id := 0, log := [Effect.pre_unmount] }
  if mount.is_burn_mount then
    -- burn mounts are really never mounted so complete successfully immediately
    complete_and_unref s true
  else
    match identify w mount with
    | Identified.error message =>
      complete_and_unref
        (set_error s { domain := G_IO_ERROR, code := G_IO_ERROR_FAILED, message := message })
        false
    | Identified.assertion_failed enc =>
      { s with data := { s.data with encrypted := enc },
               log := s.log ++ [Effect.assertion_failed] }
    | Identified.ok fs enc =>
      unmount_do { s with data := { s.data with filesystem := fs, encrypted := enc } } false

/-- What the event loop can deliver to an unmount request. -/
inductive Event where
  /-- An unmount RPC finished. -/
  | unmount_finished (error : Option GError)
  /-- An `umount` command finished. -/
  | umount_command_finished (res : SpawnResult (Option String))
  /-- An `lsof` command finished. -/
  | lsof_command_finished (res : SpawnResult String)
  /-- A lock RPC finished. -/
  | lock_finished (error : Option GError)
  /-- The retry timeout source fired. -/
  | retry_timer
  /-- The mount operation emitted "reply". -/
  | mount_op_reply (result : GMountOperationResult) (choice : Int)
deriving DecidableEq, Repr

/-- The first outstanding unmount RPC. -/
def first_unmount_rpc : List Pending → Option UDisksFilesystem
  | [] => none
  | Pending.unmount_rpc fs :: _ => some fs
  | _ :: rest => first_unmount_rpc rest

/-- The event loop dispatches one event; `none` when nothing outstanding can
produce it. -/
def step (s : UnmountSys) : Event → Option UnmountSys
  | Event.unmount_finished error =>
    match first_unmount_rpc s.pending with
    | some fs => some (unmount_cb { s with pending := s.pending.erase (Pending.unmount_rpc fs) } fs error)
    | none => none
  | Event.umount_command_finished res =>
    if Pending.umount_command ∈ s.pending then
      some (umount_command_cb { s with pending := s.pending.erase Pending.umount_command } res)
    else none
  | Event.lsof_command_finished res =>
    if Pending.lsof_command ∈ s.pending then
      some (lsof_command_cb { s with pending := s.pending.erase Pending.lsof_command } res)
    else none
  | Event.lock_finished error =>
    match s.pending.find? (fun p => match p with
                                    | Pending.lock_rpc _ => true
                                    | _ => false) with
    | some p => some (lock_cb { s with pending := s.pending.erase p } error)
    | none => none
  | Event.retry_timer =>
    match s.timers with
    | source_id :: _ => some (on_retry_timer_cb s source_id)
    | [] => none
  | Event.mount_op_reply result choice =>
    if s.handlers.isEmpty then none else some (on_mount_op_reply s result choice)

/-- The event loop dispatches a sequence of events. -/
def run_events (s : UnmountSys) : List Event → Option UnmountSys
  | [] => some s
  | e :: rest =>
    match step s e with
    | some s1 => run_events s1 rest
    | none => none

/-- The terminal results delivered so far, in order. -/
def deliveries (log : List Effect) : List (Option GError) :=
  log.filterMap (fun e => match e with
    | Effect.complete _ error => some error
    | _ => none)

/-- Nothing is outstanding: no event can reach the request any more. -/
def UnmountSys.finished (s : UnmountSys) : Bool :=
  s.pending.isEmpty && s.timers.isEmpty && s.handlers.isEmpty

/-! ## Invariants and sample inputs -/

/-- All three "searched" latches are set. -/
def Searched (m : GVfsUDisks2Mount) : Prop :=
  m.searched_for_bdmv_volume_info = true ∧ m.searched_for_xdg_volume_info = true ∧
    m.searched_for_autorun = true

/-- The latches are set and every probe has been queried exactly once. -/
def QueriedOnce (s : MountSys) : Prop :=
  Searched s.mount ∧ ∀ p, query_count p s.log = 1

/-- Sample filesystem proxy, mounted at /media/usb0. -/
def sample_filesystem : UDisksFilesystem := ⟨7, ["/media/usb0"]⟩

/-- Sample block device whose object exports a filesystem interface. -/
def sample_block : UDisksBlock := ⟨some ⟨some sample_filesystem, none⟩, none⟩

/-- Sample encrypted proxy. -/
def sample_encrypted : UDisksEncrypted := ⟨9⟩

/-- Sample encrypted block device with an unlocked cleartext block that
exports a filesystem interface. -/
def sample_encrypted_block : UDisksBlock :=
  ⟨some ⟨none, some sample_encrypted⟩, some (some ⟨some sample_filesystem, none⟩)⟩

/-- Sample surroundings: volume 1 sits on `sample_block`, volume 2 on
`sample_encrypted_block`, other volumes have no block device. -/
def sample_world : World where
  volume_icon := fun _ => some ⟨"drive-harddisk-usb"⟩
  volume_name := fun _ => some "Vol"
  volume_block := fun v =>
    if v = 1 then some sample_block else if v = 2 then some sample_encrypted_block else none
  icon_from_fs_type := fun _ => some ⟨"drive-removable-media"⟩

/-- Sample system mount record. -/
def sample_entry : GUnixMountEntry where
  guess_name := "Entry"
  device_path := "/dev/sdb1"
  mount_path := "/media/usb0"
  fs_type := "vfat"
  guess_should_display := true

/-- The result of a constructor call, with the zeroed object standing in for a
`NULL` result. -/
def mount_sys_of (r : Option MountSys) (w : World) : MountSys :=
  r.getD { world := w, mount := gvfs_udisks2_mount_init, connected := [], log := [] }

/-- The mount constructed from `sample_entry` for volume 1. -/
def sample_mount_sys : MountSys :=
  mount_sys_of (gvfs_udisks2_mount_new sample_world 0 (some sample_entry) (some 1) 1000) sample_world

/-- The mount constructed from `sample_entry` without a volume. -/
def sample_plain_mount_sys : MountSys :=
  mount_sys_of (gvfs_udisks2_mount_new sample_world 0 (some sample_entry) none 1000) sample_world

/-- The mount constructed from `sample_entry` for the encrypted volume 2. -/
def sample_encrypted_mount_sys : MountSys :=
  mount_sys_of (gvfs_udisks2_mount_new sample_world 0 (some sample_entry) (some 2) 1000) sample_world

/-- The virtual burn mount constructed for volume 1. -/
def sample_burn_mount_sys : MountSys :=
  mount_sys_of (gvfs_udisks2_mount_new sample_world 0 none (some 1) 1000) sample_world

/-- Sample mount operation handle. -/
def sample_operation : GMountOperation := ⟨3, false⟩

/-- A "busy" error as `gvfs_udisks2_utils_udisks_error_to_gio_error` leaves it. -/
def sample_busy_error : GError := ⟨G_IO_ERROR, G_IO_ERROR_BUSY, "Device is busy"⟩

/-- While the request is not completed, the result object carries no error
and nothing has been delivered. -/
def Undelivered (s : UnmountSys) : Prop :=
  s.data.completed = false → s.data.simple_error = none ∧ deliveries s.log = []

/-- The state an event sequence leads to, with the start state standing in
when some event of the sequence cannot occur. -/
def state_after (s : UnmountSys) (events : List Event) : UnmountSys :=
  (run_events s events).getD s

/-- An unmount request with a mount operation on `sample_mount_sys`. -/
def sample_request : UnmountSys :=
  gvfs_udisks2_mount_unmount_with_operation sample_world sample_mount_sys.mount 0
    (some sample_operation) none

/-- The request `sample_request` after a busy RPC result and the process
listing: the prompt is shown and the retry timer is armed. -/
def sample_prompting : UnmountSys :=
  state_after sample_request
    [Event.unmount_finished (some sample_busy_error),
     Event.lsof_command_finished (SpawnResult.finished 0 "1234\n5678\n")]

/-- An unmount request without a mount operation on a mount without a block
device, so that the `umount` command is used. -/
def sample_command_request : UnmountSys :=
  gvfs_udisks2_mount_unmount_with_operation sample_world sample_plain_mount_sys.mount 0
    none none

/-- An unmount request on the encrypted sample volume. -/
def sample_encrypted_request : UnmountSys :=
  gvfs_udisks2_mount_unmount_with_operation sample_world sample_encrypted_mount_sys.mount 0
    (some sample_operation) none

/-- Number of outstanding `lsof` commands. -/
def lsof_outstanding (s : UnmountSys) : Nat :=
  s.pending.count Pending.lsof_command

/-- While the request is not completed, the context is not released and its
reference count is `k` plus one reference per outstanding `lsof` command. -/
def LiveWith (k : Int) (s : UnmountSys) : Prop :=
  s.data.completed = false →
    s.freed = false ∧ s.data.ref_count = k + (lsof_outstanding s : Int)

/-- A mount object on which the BDMV probe has found an icon. -/
def sample_bdmv_mount : GVfsUDisks2Mount :=
  { sample_mount_sys.mount with bdmv_volume_info_icon := some ⟨"media-optical-bd"⟩ }

/-! ## Monitor refresh, eject and content type -/

/-- Number of calls of `gvfs_udisks2_volume_monitor_update` in a log. -/
def refresh_count (log : List Effect) : Nat :=
  log.count Effect.monitor_update

/-- A `GDrive` of the volume monitor; `media` is what `udisks_drive_get_media`
returns for its `UDisksDrive`. -/
structure GDrive where
  id : Nat
  media : Option String
deriving DecidableEq, Repr

/-- `GIOErrorEnum` value `G_IO_ERROR_NOT_SUPPORTED`. -/
def G_IO_ERROR_NOT_SUPPORTED : Int := 15

/-- The accessor `gvfs_udisks2_mount_get_drive`; `volume_drive` is what
`g_volume_get_drive` returns for each volume. -/
def gvfs_udisks2_mount_get_drive (volume_drive : VolumePtr → Option GDrive)
    (mount : GVfsUDisks2Mount) : Option GDrive :=
  match mount.volume with
  | some v => volume_drive v
  | none => none

/-- Observable actions of an eject request. -/
inductive EjectEffect where
  /-- Call `g_drive_eject_with_operation` on the drive. -/
  | drive_eject_with_operation (drive : GDrive) (flags : Nat)
      (mount_operation : Option GMountOperation) (cancellable : Option Nat)
  /-- Call `g_simple_async_result_complete` on a result carrying this error. -/
  | complete (error : Option GError)
deriving DecidableEq, Repr

/-- The function `gvfs_udisks2_mount_eject_with_operation`. -/
def gvfs_udisks2_mount_eject_with_operation (volume_drive : VolumePtr → Option GDrive)
    (mount : GVfsUDisks2Mount) (flags : Nat) (mount_operation : Option GMountOperation)
    (cancellable : Option Nat) : List EjectEffect :=
  let drive :=
    match mount.volume with
    | some v => volume_drive v
    | none => none
  match drive with
  | some d => [EjectEffect.drive_eject_with_operation d flags mount_operation cancellable]
  | none =>
    [EjectEffect.complete
      (some { domain := G_IO_ERROR, code := G_IO_ERROR_FAILED,
              message := "Operation not supported by backend" })]

/-- The function `gvfs_udisks2_mount_eject_with_operation_finish`;
`drive_finish` is what `g_drive_eject_with_operation_finish` returns. -/
def gvfs_udisks2_mount_eject_with_operation_finish (volume_drive : VolumePtr → Option GDrive)
    (mount : GVfsUDisks2Mount) (drive_finish : Bool) : Bool :=
  let drive :=
    match mount.volume with
    | some v => volume_drive v
    | none => none
  match drive with
  | some _ => drive_finish
  | none => false

/-- GLib `g_str_has_prefix (str, pre)`. -/
def g_str_has_prefix (str pre : String) : Bool :=
  pre.data.isPrefixOf str.data

/-- The function `gvfs_udisks2_mount_guess_content_type_sync`.
`guess_for_tree` is `g_content_type_guess_for_tree`; `bootable` is, for a
device file that udev knows, the value of its "OSINFO_BOOTABLE" property.
The result is `none` for the C `NULL`. -/
def gvfs_udisks2_mount_guess_content_type_sync (volume_drive : VolumePtr → Option GDrive)
    (guess_for_tree : Option GFile → Option (List String)) (bootable : String → Option Bool)
    (mount : GVfsUDisks2Mount) : Option (List String) :=
  let p : List String :=
    if mount.is_burn_mount then
      -- doesn't make sense to probe blank discs - look at the disc type instead
      match gvfs_udisks2_mount_get_drive volume_drive mount with
      | some drive =>
        match drive.media with
        | some media =>
          if g_str_has_prefix media "optical_dvd" then ["x-content/blank-dvd"]
          else if g_str_has_prefix media "optical_hddvd" then ["x-content/blank-hddvd"]
          else if g_str_has_prefix media "optical_bd" then ["x-content/blank-bd"]
          else ["x-content/blank-cd"] -- assume CD
        | none => []
      | none => []
    else
      -- sniff content type
      match guess_for_tree mount.root with
      | some x_content_types => x_content_types
      | none => []
  -- Check if its bootable
  let p :=
    match mount.device_file with
    | some device_file =>
      match bootable device_file with
      | some true => p ++ ["x-content/bootable-media"]
      | _ => p
    | none => p
  if p.length == 0 then none else some p

/-- The fields of a mount object that are written by the constructor only. -/
def constructed_fields (m : GVfsUDisks2Mount) :
    Bool × Option String × Option String × Option String × Option GUnixMountEntry ×
      Option GFile × Option String :=
  (m.is_burn_mount, m.device_file, m.mount_path, m.uuid, m.mount_entry, m.root, m.sort_key)

/-- Sample drives: volume 1 sits in a drive holding a blank DVD+R. -/
def sample_volume_drive (v : VolumePtr) : Option GDrive :=
  if v = 1 then some ⟨5, some "optical_dvd_plus_r"⟩ else none

/-- The effects `unmount_data_unref` logs: none unless the count reaches
zero. -/
def unref_effects (s : UnmountSys) : List Effect :=
  if s.data.ref_count - 1 == 0 then
    (if s.data.mount_op_reply_handler_id > 0 then
      match s.data.mount_operation with
      | some op => [Effect.aborted op, Effect.disconnect_reply s.data.mount_op_reply_handler_id]
      | none => []
     else []) ++
    (if s.data.retry_unmount_timer_id > 0 then
      [Effect.source_remove s.data.retry_unmount_timer_id]
     else []) ++
    [Effect.data_free]
  else []

/-! ## Decimal renderings -/

/-- The number a big-endian list of decimal digits denotes. -/
def digits_value (ds : List Nat) : Nat :=
  ds.foldl (fun acc d => acc * 10 + d) 0

/-- Big-endian decimal digits of a number, as `Nat.repr` prints them: a
non-empty list of digits below ten that denotes the number. -/
def IsDecimal (ds : List Nat) (n : Nat) : Prop :=
  ds ≠ [] ∧ (∀ d ∈ ds, d < 10) ∧ digits_value ds = n

/-! ## Parameters of an unmount request -/

/-- The parts of the operation context that are set when the request is made
and read by every later attempt. -/
def request_params (s : UnmountSys) :
    Option GMountOperation × Nat × Option UDisksFilesystem × Option UDisksEncrypted ×
      GVfsUDisks2Mount :=
  (s.data.mount_operation, s.data.flags, s.data.filesystem, s.data.encrypted, s.data.mount)

/-- As long as the context `s'` is not released, it was not released in `s`
either and still carries the request parameters of `s`. -/
def Keeps (s s' : UnmountSys) : Prop :=
  s'.freed = false → s.freed = false ∧ request_params s' = request_params s

/-! ## The process list, as the specification words it -/

/-- The whitespace-delimited tokens of a text. -/
def tokens (text : List Char) : List (List Char) :=
  (text.splitOnP isspace).filter (fun t => !t.isEmpty)

/-- The value of a token of decimal digits. -/
def decimal_value (token : List Char) : Nat :=
  token.foldl (fun acc c => acc * 10 + (c.toNat - 48)) 0

/-- The reading the specification gives of the `lsof` output: a
whitespace-delimited list of decimal process identifiers, up to the first
token that is not a decimal number. -/
def spec_pid_list (standard_output : String) : List Int :=
  ((tokens standard_output.data).takeWhile (fun t => t.all Char.isDigit)).map
    (fun t => (decimal_value t : Int))

/-- A printed PID list: each identifier in decimal, followed by its
separator. -/
def print_pids : List (Nat × List Char) → List Char
  | [] => []
  | (pid, separator) :: rest => (Nat.repr pid).data ++ separator ++ print_pids rest

/-- Number of outstanding continuations that will use the operation context:
pending RPCs and commands, and armed retry timers. -/
def outstanding (s : UnmountSys) : Nat :=
  s.pending.length + s.timers.length

/-! ## Inputs for the identification assertion -/

/-- Sample encrypted block device that is locked: its object exports the
encrypted interface only and the client finds no cleartext block for it. -/
def sample_locked_block : UDisksBlock :=
  ⟨some ⟨none, some sample_encrypted⟩, none⟩

/-- Sample surroundings in which every volume sits on `sample_locked_block`. -/
def sample_locked_world : World :=
  { sample_world with volume_block := fun _ => some sample_locked_block }

/-! # Theorems -/

/-! ## Merge of name and icon -/

/-- The test `g_strcmp0 (a, b) == 0` holds exactly when both are `NULL` or both are the same string. -/
theorem g_strcmp0_eq_zero (a b : Option String) : (g_strcmp0 a b == 0) = decide (a = b) := by
  cases a <;> cases b <;> simp [g_strcmp0]
  rename_i a b
  by_cases h : a = b
  · subst h
    simp [String.lt_irrefl]
  · simp [h]
    split <;> simp

/-- The test `g_icon_equal` is equality of optional icons. -/
theorem g_icon_equal_eq (a b : Option GIcon) : g_icon_equal a b = decide (a = b) := by
  cases a <;> cases b <;> simp [g_icon_equal]
  rename_i a b
  by_cases h : a = b <;> simp [h]

/-- The first present value of a one-element list is its element. -/
theorem first_present_singleton {α : Type} (a : Option α) : first_present [a] = a := by
  cases a <;> rfl

/-- C5: after `update_mount` the merged icon is the first present value among the BDMV icon, the XDG
icon, the autorun icon and the fallback (the volume's icon when a volume is attached, otherwise
the icon derived from the mount record's filesystem type); the merged name is the first present
value among the BDMV name, the XDG name and the fallback (the volume's name when a volume is
attached, otherwise the mount record's guessed name); and neither depends on the previous merged
icon, name or can-unmount flag. -/
theorem update_mount_merge (w : World) (mount : GVfsUDisks2Mount) :
    (update_mount w mount).mount.icon =
      first_present [mount.bdmv_volume_info_icon, mount.xdg_volume_info_icon, mount.autorun_icon,
        match mount.volume with
        | some v => w.volume_icon v
        | none => w.icon_from_fs_type (g_unix_mount_get_fs_type mount.mount_entry)] ∧
    (update_mount w mount).mount.name =
      first_present [mount.bdmv_volume_info_name, mount.xdg_volume_info_name,
        match mount.volume with
        | some v => w.volume_name v
        | none => mount.mount_entry_name] ∧
    ∀ (icon : Option GIcon) (name : Option String) (can_unmount : Bool),
      (update_mount w { mount with icon := icon, name := name, can_unmount := can_unmount }).mount.icon
          = (update_mount w mount).mount.icon ∧
      (update_mount w { mount with icon := icon, name := name, can_unmount := can_unmount }).mount.name
          = (update_mount w mount).mount.name := by
  obtain ⟨monitor, volume, mount_entry, root, icon, name, sort_key, uuid, device_file, mount_path,
    can_unmount, mount_entry_name, mount_entry_fs_type, is_burn_mount, autorun_icon,
    searched_for_autorun, xdg_name, xdg_icon, searched_xdg, bdmv_name, bdmv_icon, searched_bdmv⟩ := mount
  refine ⟨?_, ?_, ?_⟩
  · cases volume <;> cases bdmv_icon <;> cases xdg_icon <;> cases autorun_icon <;>
      simp [update_mount, update_mount_icon, first_present, first_present_singleton]
  · cases volume <;> cases bdmv_name <;> cases xdg_name <;>
      simp [update_mount, update_mount_name, first_present, first_present_singleton]
  · intro i n c
    simp [update_mount, update_mount_icon, update_mount_name]

/-- C6: on a mount on which `update_mount` has run, the next `update_mount` returns false after a
change of only the XDG icon or only the autorun icon while a BDMV icon is present, of only the
autorun icon while an XDG icon is present, of only the fallback icon (what the volume or the
filesystem-type helper reports) while any probe icon is present, of only the XDG name while a
BDMV name is present, and of only the fallback name (the volume's name or the mount record's
name) while a BDMV or XDG name is present.  In particular the autorun callback, which changes
only the autorun icon, emits nothing while a BDMV or XDG icon is present. -/
theorem lower_priority_change_not_notified (w : World) (m0 : GVfsUDisks2Mount) :
    (∀ i, (update_mount w m0).mount.bdmv_volume_info_icon ≠ none →
      (update_mount w { (update_mount w m0).mount with xdg_volume_info_icon := i }).changed = false) ∧
    (∀ i, (update_mount w m0).mount.bdmv_volume_info_icon ≠ none →
      (update_mount w { (update_mount w m0).mount with autorun_icon := i }).changed = false) ∧
    (∀ i, (update_mount w m0).mount.xdg_volume_info_icon ≠ none →
      (update_mount w { (update_mount w m0).mount with autorun_icon := i }).changed = false) ∧
    (∀ w' : World,
      ((update_mount w m0).mount.bdmv_volume_info_icon ≠ none ∨
        (update_mount w m0).mount.xdg_volume_info_icon ≠ none ∨
        (update_mount w m0).mount.autorun_icon ≠ none) →
      (∀ v, w'.volume_name v = w.volume_name v) →
      (update_mount w' (update_mount w m0).mount).changed = false) ∧
    (∀ n, (update_mount w m0).mount.bdmv_volume_info_name ≠ none →
      (update_mount w { (update_mount w m0).mount with xdg_volume_info_name := n }).changed = false) ∧
    (∀ (w' : World) (n : Option String),
      ((update_mount w m0).mount.bdmv_volume_info_name ≠ none ∨
        (update_mount w m0).mount.xdg_volume_info_name ≠ none) →
      (∀ v, w'.volume_icon v = w.volume_icon v) →
      w'.icon_from_fs_type = w.icon_from_fs_type →
      (update_mount w' { (update_mount w m0).mount with mount_entry_name := n }).changed = false) ∧
    (∀ (s : MountSys) (i : Option GIcon), s.world = w → s.mount = (update_mount w m0).mount →
      ((update_mount w m0).mount.bdmv_volume_info_icon ≠ none ∨
        (update_mount w m0).mount.xdg_volume_info_icon ≠ none) →
      (got_autorun_info_cb s i).log = s.log) := by
  obtain ⟨monitor, volume, mount_entry, root, icon, name, sort_key, uuid, device_file, mount_path,
    can_unmount, mount_entry_name, mount_entry_fs_type, is_burn_mount, autorun_icon,
    searched_for_autorun, xdg_name, xdg_icon, searched_xdg, bdmv_name, bdmv_icon, searched_bdmv⟩ := m0
  refine ⟨?_, ?_, ?_, ?_, ?_, ?_, ?_⟩
  · intro i h
    cases volume <;> cases bdmv_icon <;>
      simp_all [update_mount, update_mount_icon, update_mount_name, g_strcmp0_eq_zero, g_icon_equal_eq]
  · intro i h
    cases volume <;> cases bdmv_icon <;>
      simp_all [update_mount, update_mount_icon, update_mount_name, g_strcmp0_eq_zero, g_icon_equal_eq]
  · intro i h
    cases volume <;> cases bdmv_icon <;> cases xdg_icon <;>
      simp_all [update_mount, update_mount_icon, update_mount_name, g_strcmp0_eq_zero, g_icon_equal_eq]
  · intro w' h hn
    cases volume <;> cases bdmv_icon <;> cases xdg_icon <;> cases autorun_icon <;>
      simp_all [update_mount, update_mount_icon, update_mount_name, g_strcmp0_eq_zero, g_icon_equal_eq]
  · intro n h
    cases volume <;> cases bdmv_name <;>
      simp_all [update_mount, update_mount_icon, update_mount_name, g_strcmp0_eq_zero, g_icon_equal_eq]
  · intro w' n h hi hf
    cases volume <;> cases bdmv_name <;> cases xdg_name <;>
      simp_all [update_mount, update_mount_icon, update_mount_name, g_strcmp0_eq_zero, g_icon_equal_eq]
  · intro s i hw hm h
    obtain ⟨world, mount, connected, log⟩ := s
    simp only at hw hm
    subst hw hm
    cases volume <;> cases bdmv_icon <;> cases xdg_icon <;>
      simp_all [got_autorun_info_cb, update_and_notify, MountSys.update, emit_changed,
        update_mount, update_mount_icon, update_mount_name, g_strcmp0_eq_zero, g_icon_equal_eq]

/-- Witness for C6: a BDMV icon is present and the XDG icon changes. -/
theorem lower_priority_change_not_notified_witness :
    (update_mount sample_world sample_bdmv_mount).mount.bdmv_volume_info_icon ≠ none ∧
    (update_mount sample_world
      { (update_mount sample_world sample_bdmv_mount).mount with
        xdg_volume_info_icon := some ⟨"folder"⟩ }).changed = false :=
  ⟨by decide,
    (lower_priority_change_not_notified sample_world sample_bdmv_mount).1 (some ⟨"folder"⟩)
      (by decide)⟩

/-! ## Probe queries -/

/-- Query counts add up over concatenated logs. -/
theorem query_count_append (p : Probe) (l₁ l₂ : List MountEffect) :
    query_count p (l₁ ++ l₂) = query_count p l₁ + query_count p l₂ := by
  simp [query_count]

/-- After `update_mount` all three latches are set. -/
theorem update_mount_searched (w : World) (m : GVfsUDisks2Mount) :
    Searched (update_mount w m).mount := by
  simp [Searched, update_mount]

/-- With all latches set `update_mount` issues no query. -/
theorem update_mount_queries_nil (w : World) (m : GVfsUDisks2Mount) (h : Searched m) :
    (update_mount w m).queries = [] := by
  obtain ⟨h1, h2, h3⟩ := h
  simp [update_mount, h1, h2, h3]

/-- The invariant survives appending effects that are not queries. -/
theorem queriedOnce_extend (s s' : MountSys) (es : List MountEffect) (h : QueriedOnce s)
    (hm : Searched s'.mount) (hlog : s'.log = s.log ++ es)
    (hes : ∀ p, query_count p es = 0) : QueriedOnce s' := by
  refine ⟨hm, fun p => ?_⟩
  rw [hlog, query_count_append, h.2 p, hes p]

/-- The invariant survives `update_mount`. -/
theorem queriedOnce_update (s : MountSys) (h : QueriedOnce s) : QueriedOnce s.update.1 := by
  refine queriedOnce_extend s _ [] h (update_mount_searched _ _) ?_ (fun p => rfl)
  simp [MountSys.update, update_mount_queries_nil _ _ h.1]

/-- The invariant survives `emit_changed`. -/
theorem queriedOnce_emit_changed (s : MountSys) (h : QueriedOnce s) :
    QueriedOnce (emit_changed s) :=
  queriedOnce_extend s _ [MountEffect.changed, MountEffect.mount_changed] h h.1 rfl
    (fun p => by cases p <;> rfl)

/-- The invariant survives a merge followed by a notification. -/
theorem queriedOnce_update_and_notify (s : MountSys) (h : QueriedOnce s) :
    QueriedOnce (update_and_notify s) := by
  by_cases hc : s.update.2 = true
  · simpa [update_and_notify, hc] using queriedOnce_emit_changed _ (queriedOnce_update s h)
  · simpa [update_and_notify, hc] using queriedOnce_update s h

/-- The invariant survives `gvfs_udisks2_mount_unset_volume`. -/
theorem queriedOnce_unset_volume (s : MountSys) (v : Option VolumePtr) (h : QueriedOnce s) :
    QueriedOnce (gvfs_udisks2_mount_unset_volume s v) := by
  unfold gvfs_udisks2_mount_unset_volume
  split
  · apply queriedOnce_emit_changed
    cases hv : s.mount.volume with
    | none => exact ⟨h.1, h.2⟩
    | some x =>
      exact queriedOnce_extend s _ [MountEffect.disconnect x] h h.1 rfl
        (fun p => by cases p <;> rfl)
  · exact h

/-- The invariant survives `gvfs_udisks2_mount_set_volume`. -/
theorem queriedOnce_set_volume (s : MountSys) (v : Option VolumePtr) (h : QueriedOnce s) :
    QueriedOnce (gvfs_udisks2_mount_set_volume s v) := by
  unfold gvfs_udisks2_mount_set_volume
  split
  · apply queriedOnce_emit_changed
    apply queriedOnce_update
    have h1 : QueriedOnce
        (if s.mount.volume != none then gvfs_udisks2_mount_unset_volume s s.mount.volume else s) := by
      split
      · exact queriedOnce_unset_volume _ _ h
      · exact h
    cases v with
    | none => exact ⟨h1.1, h1.2⟩
    | some x =>
      exact queriedOnce_extend _ _ [MountEffect.volume_set_mount x, MountEffect.connect x] h1 h1.1
        rfl (fun p => by cases p <;> rfl)
  · exact h

/-- The invariant survives `gvfs_udisks2_mount_unmounted`. -/
theorem queriedOnce_unmounted (s : MountSys) (h : QueriedOnce s) :
    QueriedOnce (gvfs_udisks2_mount_unmounted s) := by
  unfold gvfs_udisks2_mount_unmounted
  split
  · rename_i v hv
    apply queriedOnce_emit_changed
    exact queriedOnce_extend s _ [MountEffect.volume_unset_mount v, MountEffect.disconnect v] h h.1
      rfl (fun p => by cases p <;> rfl)
  · exact h

/-- The invariant survives any number of `on_volume_changed` calls. -/
theorem queriedOnce_foldl (l : List VolumePtr) (s : MountSys) (h : QueriedOnce s) :
    QueriedOnce (l.foldl (fun acc _ => on_volume_changed acc) s) := by
  induction l generalizing s with
  | nil => exact h
  | cons a l ih => exact ih _ (queriedOnce_update_and_notify s h)

/-- The invariant survives every operation. -/
theorem queriedOnce_apply (s : MountSys) (op : MountOp) (h : QueriedOnce s) :
    QueriedOnce (s.apply op) := by
  cases op with
  | volume_changed v icon name =>
    exact queriedOnce_foldl _ _ ⟨h.1, h.2⟩
  | set_volume v => exact queriedOnce_set_volume s v h
  | unset_volume v => exact queriedOnce_unset_volume s v h
  | unmounted => exact queriedOnce_unmounted s h
  | got_bdmv icon name => exact queriedOnce_update_and_notify _ ⟨h.1, h.2⟩
  | got_xdg icon name => exact queriedOnce_update_and_notify _ ⟨h.1, h.2⟩
  | got_autorun icon => exact queriedOnce_update_and_notify _ ⟨h.1, h.2⟩

/-- The invariant survives every sequence of operations. -/
theorem queriedOnce_run (ops : List MountOp) (s : MountSys) (h : QueriedOnce s) :
    QueriedOnce (s.run ops) := by
  induction ops generalizing s with
  | nil => exact h
  | cons op ops ih => exact ih _ (queriedOnce_apply s op h)

/-- The invariant holds for every constructed mount. -/
theorem queriedOnce_new (w : World) (monitor : Nat) (mount_entry : Option GUnixMountEntry)
    (volume : Option VolumePtr) (now : Int) (s : MountSys)
    (h : gvfs_udisks2_mount_new w monitor mount_entry volume now = some s) : QueriedOnce s := by
  unfold gvfs_udisks2_mount_new at h
  split at h
  · exact absurd h (by simp)
  · simp only [Option.some.injEq] at h
    subst h
    refine ⟨update_mount_searched _ _, fun p => ?_⟩
    cases volume <;> cases mount_entry <;> cases p <;>
      simp [MountSys.update, update_mount, gvfs_udisks2_mount_init, query_count]

/-- C7: for every mount the constructor returns and every sequence of later operations
(volume-changed events, set_volume, unset_volume, unmounted, probe completions, in any order and
number), each of the three probe queries has been issued exactly once; the constructor's own
`update_mount` issues them and no later call does. -/
theorem probes_queried_exactly_once (w : World) (monitor : Nat)
    (mount_entry : Option GUnixMountEntry) (volume : Option VolumePtr) (now : Int)
    (s : MountSys) (ops : List MountOp)
    (h : gvfs_udisks2_mount_new w monitor mount_entry volume now = some s) (p : Probe) :
    query_count p (s.run ops).log = 1 :=
  (queriedOnce_run ops s (queriedOnce_new w monitor mount_entry volume now s h)).2 p

/-- Witness for C7: the sample mount after four operations. -/
theorem probes_queried_exactly_once_witness :
    gvfs_udisks2_mount_new sample_world 0 (some sample_entry) (some 1) 1000 =
      some sample_mount_sys ∧
    query_count Probe.xdg
      (sample_mount_sys.run
        [MountOp.got_bdmv none (some "Disc"), MountOp.volume_changed 1 none none,
         MountOp.set_volume none, MountOp.set_volume (some 1)]).log = 1 :=
  ⟨rfl, probes_queried_exactly_once sample_world 0 (some sample_entry) (some 1) 1000
    sample_mount_sys _ rfl Probe.xdg⟩

/-! ## Volume association and construction -/

/-- C8, counterexample: the sample mount takes its name from volume 1; after
`gvfs_udisks2_mount_unset_volume` it has no volume but still carries the volume's name "Vol",
while the merge rule for a mount without a volume yields the mount record's name "Entry". -/
theorem unset_volume_keeps_merged_values :
    sample_mount_sys.mount.volume = some 1 ∧
    (gvfs_udisks2_mount_unset_volume sample_mount_sys (some 1)).mount.volume = none ∧
    (gvfs_udisks2_mount_unset_volume sample_mount_sys (some 1)).mount.name = some "Vol" ∧
    (update_mount sample_world
      (gvfs_udisks2_mount_unset_volume sample_mount_sys (some 1)).mount).mount.name = some "Entry" ∧
    (gvfs_udisks2_mount_unset_volume sample_mount_sys (some 1)).mount.name ≠
      (update_mount sample_world
        (gvfs_udisks2_mount_unset_volume sample_mount_sys (some 1)).mount).mount.name := by
  decide

/-- C8, amended: for every mount whose volume is `v`, after `gvfs_udisks2_mount_unset_volume (mount,
v)` the mount has no volume, the merged name and icon are unchanged (no merge is run), the
change subscription is gone, and the "changed" and "mount-changed" signals have been emitted. -/
theorem unset_volume_detaches (s : MountSys) (v : VolumePtr) (h : s.mount.volume = some v) :
    (gvfs_udisks2_mount_unset_volume s (some v)).mount.volume = none ∧
    (gvfs_udisks2_mount_unset_volume s (some v)).mount.name = s.mount.name ∧
    (gvfs_udisks2_mount_unset_volume s (some v)).mount.icon = s.mount.icon ∧
    v ∉ (gvfs_udisks2_mount_unset_volume s (some v)).connected ∧
    (gvfs_udisks2_mount_unset_volume s (some v)).log =
      s.log ++ [MountEffect.disconnect v, MountEffect.changed, MountEffect.mount_changed] := by
  simp [gvfs_udisks2_mount_unset_volume, h, emit_changed]

/-- Witness for C8: the sample mount and its volume 1. -/
theorem unset_volume_detaches_witness :
    sample_mount_sys.mount.volume = some 1 ∧
    (gvfs_udisks2_mount_unset_volume sample_mount_sys (some 1)).mount.volume = none ∧
    (gvfs_udisks2_mount_unset_volume sample_mount_sys (some 1)).mount.name =
      sample_mount_sys.mount.name :=
  ⟨by decide, (unset_volume_detaches sample_mount_sys 1 (by decide)).1,
    (unset_volume_detaches sample_mount_sys 1 (by decide)).2.1⟩

/-- C9: `gvfs_udisks2_mount_new` returns no entity exactly when no volume is given and a mount
record is given whose should-display predicate is false; with a record and a volume it returns
an entity; with no record it returns a virtual burn mount: `is_burn_mount` set, no device file,
no mount path. -/
theorem mount_new_result (w : World) (monitor : Nat) (now : Int) :
    (∀ (mount_entry : Option GUnixMountEntry) (volume : Option VolumePtr),
      gvfs_udisks2_mount_new w monitor mount_entry volume now = none ↔
        volume = none ∧ ∃ e, mount_entry = some e ∧ e.guess_should_display = false) ∧
    (∀ (e : GUnixMountEntry) (v : VolumePtr),
      (gvfs_udisks2_mount_new w monitor (some e) (some v) now).isSome = true) ∧
    (∀ (volume : Option VolumePtr),
      ∃ s, gvfs_udisks2_mount_new w monitor none volume now = some s ∧
        s.mount.is_burn_mount = true ∧ s.mount.device_file = none ∧ s.mount.mount_path = none ∧
        s.mount.mount_entry = none) := by
  refine ⟨?_, ?_, ?_⟩
  · intro mount_entry volume
    cases volume <;> cases mount_entry <;> simp [gvfs_udisks2_mount_new]
  · intro e v
    simp [gvfs_udisks2_mount_new]
  · intro volume
    cases volume <;> simp [gvfs_udisks2_mount_new, MountSys.update, update_mount,
      gvfs_udisks2_mount_init]

/-! ## The unmount request -/

/-- Deliveries of concatenated logs. -/
theorem deliveries_append (l₁ l₂ : List Effect) :
    deliveries (l₁ ++ l₂) = deliveries l₁ ++ deliveries l₂ := by
  simp [deliveries]

/-- Dropping a reference changes neither the completion flag, nor the stored error, nor the
outstanding calls, nor what has been delivered. -/
theorem unmount_data_unref_spec (s : UnmountSys) :
    (unmount_data_unref s).data.completed = s.data.completed ∧
    (unmount_data_unref s).data.simple_error = s.data.simple_error ∧
    (unmount_data_unref s).pending = s.pending ∧
    deliveries (unmount_data_unref s).log = deliveries s.log := by
  unfold unmount_data_unref
  simp only []
  split
  · split
    · split
      · split <;> simp [deliveries]
      · split <;> simp [deliveries]
    · split <;> simp [deliveries]
  · simp

/-- Completing sets the flag, keeps the outstanding calls and delivers the stored error. -/
theorem complete_and_unref_spec (s : UnmountSys) (in_idle : Bool) :
    (complete_and_unref s in_idle).data.completed = true ∧
    (complete_and_unref s in_idle).pending = s.pending ∧
    deliveries (complete_and_unref s in_idle).log = deliveries s.log ++ [s.data.simple_error] := by
  unfold complete_and_unref
  simp only []
  refine ⟨?_, ?_, ?_⟩
  · rw [(unmount_data_unref_spec _).1]
  · rw [(unmount_data_unref_spec _).2.2.1]; rfl
  · rw [(unmount_data_unref_spec _).2.2.2]
    simp [UnmountSys.emit, deliveries]

/-- C3: for every virtual burn mount and all flags, operation handles and cancellables,
`gvfs_udisks2_mount_unmount_with_operation` emits the pre-unmount signal, completes with success
and releases the context; the log holds nothing else, so no unmount RPC, no lock RPC, no
`umount` and no `lsof` command is issued, and nothing stays outstanding. -/
theorem burn_mount_unmount_succeeds (w : World) (mount : GVfsUDisks2Mount) (flags : Nat)
    (mount_operation : Option GMountOperation) (cancellable : Option Nat)
    (h : mount.is_burn_mount = true) :
    (gvfs_udisks2_mount_unmount_with_operation w mount flags mount_operation cancellable).log =
      [Effect.pre_unmount, Effect.complete true none, Effect.data_free] ∧
    (gvfs_udisks2_mount_unmount_with_operation w mount flags mount_operation cancellable).pending = [] ∧
    (gvfs_udisks2_mount_unmount_with_operation w mount flags mount_operation cancellable).finished = true ∧
    (gvfs_udisks2_mount_unmount_with_operation w mount flags mount_operation cancellable).data.completed
      = true := by
  simp [gvfs_udisks2_mount_unmount_with_operation, h, complete_and_unref, unmount_data_unref,
    UnmountSys.emit, UnmountSys.finished]

/-- Witness for C3: the burn mount constructed without a mount record. -/
theorem burn_mount_unmount_succeeds_witness :
    sample_burn_mount_sys.mount.is_burn_mount = true ∧
    (gvfs_udisks2_mount_unmount_with_operation sample_world sample_burn_mount_sys.mount 1
      (some sample_operation) none).log =
      [Effect.pre_unmount, Effect.complete true none, Effect.data_free] :=
  ⟨by decide, (burn_mount_unmount_succeeds sample_world sample_burn_mount_sys.mount 1
      (some sample_operation) none (by decide)).1⟩

/-- C1, failing input: with two unmount RPCs in flight (one from the retry timer, one from an
"Unmount Anyway" reply) and an `lsof` command outstanding, the successful RPC delivers success
and the later "aborted" reply delivers FAILED_HANDLED: two terminal results for one request,
before any callback has touched released memory. -/
theorem double_delivery_trace :
    (run_events sample_request
      [Event.unmount_finished (some sample_busy_error),
       Event.lsof_command_finished (SpawnResult.finished 0 "1234\n5678\n"),
       Event.retry_timer,
       Event.unmount_finished (some sample_busy_error),
       Event.mount_op_reply GMountOperationResult.HANDLED 0,
       Event.lsof_command_finished (SpawnResult.finished 0 "1234\n"),
       Event.retry_timer,
       Event.unmount_finished (some sample_busy_error),
       Event.unmount_finished none,
       Event.mount_op_reply GMountOperationResult.ABORTED 0]).map
      (fun s => ((deliveries s.log).map (fun r => r.map GError.code),
                 decide (Effect.use_after_free ∈ s.log))) =
    some ([none, some G_IO_ERROR_FAILED_HANDLED], false) := by
  decide

/-- A shorter trace of the same defect: the prompt is aborted while the retry RPC is in flight, the
context is released, and `unmount_cb` then runs on it. -/
theorem late_rpc_after_release_trace :
    (run_events sample_request
      [Event.unmount_finished (some sample_busy_error),
       Event.lsof_command_finished (SpawnResult.finished 0 "1234\n5678\n"),
       Event.retry_timer,
       Event.mount_op_reply GMountOperationResult.ABORTED 0,
       Event.unmount_finished none]).map
      (fun s => (s.freed, s.log.getLast?)) = some (true, some Effect.use_after_free) := by
  decide

/-- C2, failing input: no mount operation was supplied and `umount` fails with "target is busy";
`umount_command_cb` delivers nothing and spawns `lsof`, and after the process listing and a
retry tick the request is still running another `umount`. -/
theorem umount_command_busy_without_operation :
    sample_command_request.data.mount_operation = none ∧
    sample_command_request.pending = [Pending.umount_command] ∧
    (run_events sample_command_request
      [Event.umount_command_finished
        (SpawnResult.finished 8192 (some "umount: /media/usb0: target is busy.\n"))]).map
      (fun s => (deliveries s.log, s.pending, s.data.completed)) =
      some ([], [Pending.lsof_command], false) ∧
    (run_events sample_command_request
      [Event.umount_command_finished
        (SpawnResult.finished 8192 (some "umount: /media/usb0: target is busy.\n")),
       Event.lsof_command_finished (SpawnResult.finished 0 "1234\n"),
       Event.retry_timer]).map
      (fun s => (deliveries s.log, s.pending, s.finished)) =
      some ([], [Pending.umount_command], false) := by
  decide

/-- The RPC path on a busy error: without a mount operation the error is delivered, with one the
process listing is started and nothing is delivered. -/
theorem busy_dispatch (s : UnmountSys) (fs : UDisksFilesystem) (e : GError)
    (hfreed : s.freed = false) (hbusy : e.code = G_IO_ERROR_BUSY) :
    (s.data.mount_operation = none →
      deliveries (unmount_cb s fs (some e)).log = deliveries s.log ++ [some e]) ∧
    (s.data.mount_operation ≠ none →
      unmount_cb s fs (some e) = unmount_show_busy s fs.mount_points.head? ∧
      deliveries (unmount_cb s fs (some e)).log = deliveries s.log ∧
      (unmount_cb s fs (some e)).pending = s.pending ++ [Pending.lsof_command]) := by
  refine ⟨fun h => ?_, fun h => ?_⟩
  · simp [unmount_cb, hfreed, hbusy, h, (complete_and_unref_spec _ _).2.2, set_error]
  · simp [unmount_cb, hfreed, hbusy, h, unmount_show_busy, unmount_data_ref, deliveries]

/-- C4, counterexample: a Handled reply choosing index 2 completes nothing; it starts an unmount RPC
with force = true. -/
theorem forced_attempt_for_other_choice :
    sample_prompting.handlers = [1] ∧
    deliveries (on_mount_op_reply sample_prompting GMountOperationResult.HANDLED 2).log = [] ∧
    (on_mount_op_reply sample_prompting GMountOperationResult.HANDLED 2).data.completed = false ∧
    (on_mount_op_reply sample_prompting GMountOperationResult.HANDLED 2).log.getLast? =
      some (Effect.call_unmount sample_filesystem [("force", true)]) := by
  decide

/-- An aborted reply completes with FAILED_HANDLED. -/
theorem reply_aborted (s : UnmountSys) (choice : Int) (hfreed : s.freed = false) :
    on_mount_op_reply s GMountOperationResult.ABORTED choice =
      complete_and_unref (set_error (disconnect_reply_handler s) failed_handled_error) true := by
  simp [on_mount_op_reply, hfreed]

/-- A handled reply choosing index 1 completes with FAILED_HANDLED. -/
theorem reply_handled_cancel (s : UnmountSys) (hfreed : s.freed = false) :
    on_mount_op_reply s GMountOperationResult.HANDLED 1 =
      complete_and_unref (set_error (disconnect_reply_handler s) failed_handled_error) true := by
  simp [on_mount_op_reply, hfreed]

/-- A handled reply choosing any other index starts a forced attempt. -/
theorem reply_handled_other (s : UnmountSys) (choice : Int) (hfreed : s.freed = false)
    (h : choice ≠ 1) :
    on_mount_op_reply s GMountOperationResult.HANDLED choice =
      unmount_do (disconnect_reply_handler s) true := by
  simp [on_mount_op_reply, hfreed, h]

/-- An unhandled reply completes with BUSY. -/
theorem reply_unhandled (s : UnmountSys) (choice : Int) (hfreed : s.freed = false) :
    on_mount_op_reply s GMountOperationResult.UNHANDLED choice =
      complete_and_unref (set_error (disconnect_reply_handler s) busy_programs_error) true := by
  simp [on_mount_op_reply, hfreed]

/-- Completing with an error after the handler was disconnected. -/
theorem complete_with_error_spec (s : UnmountSys) (e : GError) :
    deliveries (complete_and_unref (set_error (disconnect_reply_handler s) e) true).log =
      deliveries s.log ++ [some e] ∧
    (complete_and_unref (set_error (disconnect_reply_handler s) e) true).pending = s.pending ∧
    (complete_and_unref (set_error (disconnect_reply_handler s) e) true).data.completed = true := by
  refine ⟨?_, ?_, (complete_and_unref_spec _ _).1⟩
  · rw [(complete_and_unref_spec _ _).2.2]
    simp [set_error, disconnect_reply_handler, deliveries]
  · rw [(complete_and_unref_spec _ _).2.1]
    rfl

/-- The function `unmount_do` delivers nothing and leaves the context as it is. -/
theorem unmount_do_spec (s : UnmountSys) (force : Bool) :
    deliveries (unmount_do s force).log = deliveries s.log ∧
    (unmount_do s force).data = s.data ∧
    (unmount_do s force).freed = s.freed := by
  cases hf : s.data.filesystem <;> simp [unmount_do, hf, deliveries]

/-- C4, amended: `on_mount_op_reply` does exactly one of three things. An Aborted reply or a Handled
reply choosing index 1 completes the request with the FAILED_HANDLED error and starts nothing. A
Handled reply choosing any index other than 1 disconnects the handler, starts a new unmount
attempt with force = true and completes nothing. An Unhandled reply completes the request with a
BUSY error and starts nothing. -/
theorem mount_op_reply_cases (s : UnmountSys) (result : GMountOperationResult) (choice : Int)
    (hfreed : s.freed = false) :
    ((result = GMountOperationResult.ABORTED ∨
        (result = GMountOperationResult.HANDLED ∧ choice = 1)) →
      deliveries (on_mount_op_reply s result choice).log =
        deliveries s.log ++ [some failed_handled_error] ∧
      (on_mount_op_reply s result choice).pending = s.pending ∧
      (on_mount_op_reply s result choice).data.completed = true) ∧
    ((result = GMountOperationResult.HANDLED ∧ choice ≠ 1) →
      on_mount_op_reply s result choice = unmount_do (disconnect_reply_handler s) true ∧
      deliveries (on_mount_op_reply s result choice).log = deliveries s.log ∧
      (on_mount_op_reply s result choice).data.completed = s.data.completed) ∧
    (result = GMountOperationResult.UNHANDLED →
      deliveries (on_mount_op_reply s result choice).log =
        deliveries s.log ++ [some busy_programs_error] ∧
      (on_mount_op_reply s result choice).pending = s.pending ∧
      (on_mount_op_reply s result choice).data.completed = true) := by
  refine ⟨fun h => ?_, fun h => ?_, fun h => ?_⟩
  · rcases h with h | ⟨h1, h2⟩
    · subst h
      rw [reply_aborted s choice hfreed]
      exact complete_with_error_spec s _
    · subst h1 h2
      rw [reply_handled_cancel s hfreed]
      exact complete_with_error_spec s _
  · obtain ⟨h1, h2⟩ := h
    subst h1
    rw [reply_handled_other s choice hfreed h2]
    refine ⟨rfl, ?_, ?_⟩
    · rw [(unmount_do_spec _ _).1]
      simp [disconnect_reply_handler, deliveries]
    · rw [(unmount_do_spec _ _).2.1]
      rfl
  · subst h
    rw [reply_unhandled s choice hfreed]
    exact complete_with_error_spec s _

/-- Witness for C4: an unhandled reply to the sample prompt. -/
theorem mount_op_reply_cases_witness :
    sample_prompting.freed = false ∧
    (on_mount_op_reply sample_prompting GMountOperationResult.UNHANDLED 0).data.completed = true :=
  ⟨by decide,
    ((mount_op_reply_cases sample_prompting GMountOperationResult.UNHANDLED 0 (by decide)).2.2
      rfl).2.2⟩

/-! ## Invariants of the unmount request -/

/-- A completed request satisfies the invariant. -/
theorem undelivered_of_completed (s : UnmountSys) (h : s.data.completed = true) :
    Undelivered s := by
  intro h'
  rw [h] at h'
  exact absurd h' (by decide)

/-- The invariant only looks at the flag, the stored error and the deliveries. -/
theorem undelivered_congr (s s' : UnmountSys) (h : Undelivered s)
    (hc : s'.data.completed = s.data.completed)
    (he : s'.data.simple_error = s.data.simple_error)
    (hd : deliveries s'.log = deliveries s.log) : Undelivered s' := by
  intro h'
  rw [hc] at h'
  rw [he, hd]
  exact h h'

/-- The invariant `Undelivered` survives unmount_data_unref. -/
theorem undelivered_unref (s : UnmountSys) (h : Undelivered s) :
    Undelivered (unmount_data_unref s) :=
  undelivered_congr s _ h (unmount_data_unref_spec s).1 (unmount_data_unref_spec s).2.1
    (unmount_data_unref_spec s).2.2.2

/-- The invariant `Undelivered` survives complete_and_unref. -/
theorem undelivered_complete (s : UnmountSys) (in_idle : Bool) :
    Undelivered (complete_and_unref s in_idle) :=
  undelivered_of_completed _ (complete_and_unref_spec s in_idle).1

/-- The invariant `Undelivered` survives unmount_do. -/
theorem undelivered_unmount_do (s : UnmountSys) (force : Bool) (h : Undelivered s) :
    Undelivered (unmount_do s force) :=
  undelivered_congr s _ h (by rw [(unmount_do_spec s force).2.1])
    (by rw [(unmount_do_spec s force).2.1]) (unmount_do_spec s force).1

/-- The invariant `Undelivered` survives logging effects that are not deliveries. -/
theorem undelivered_emit (s : UnmountSys) (es : List Effect) (hes : deliveries es = [])
    (h : Undelivered s) : Undelivered (s.emit es) :=
  undelivered_congr s _ h rfl rfl (by simp [UnmountSys.emit, deliveries_append, hes])

/-- The invariant `Undelivered` survives unmount_show_busy. -/
theorem undelivered_show_busy (s : UnmountSys) (mount_point : Option String)
    (h : Undelivered s) : Undelivered (unmount_show_busy s mount_point) :=
  undelivered_congr s _ h rfl rfl (by simp [unmount_show_busy, unmount_data_ref, deliveries])

/-- Showing the prompt changes neither the flag, nor the stored error, nor the deliveries. -/
theorem show_processes_prompt_spec (s : UnmountSys) (processes : List Int) :
    (show_processes_prompt s processes).data.completed = s.data.completed ∧
    (show_processes_prompt s processes).data.simple_error = s.data.simple_error ∧
    deliveries (show_processes_prompt s processes).log = deliveries s.log := by
  unfold show_processes_prompt
  simp only []
  cases hop : s.data.mount_operation <;>
    by_cases h1 : s.data.mount_op_reply_handler_id = 0 <;>
    by_cases h2 : s.data.retry_unmount_timer_id = 0 <;>
    simp [hop, h1, h2, UnmountSys.emit, deliveries, UnmountSys.fresh_id]

/-- The invariant `Undelivered` survives unmount_cb. -/
theorem undelivered_unmount_cb (s : UnmountSys) (fs : UDisksFilesystem) (error : Option GError)
    (h : Undelivered s) : Undelivered (unmount_cb s fs error) := by
  unfold unmount_cb
  split
  · exact undelivered_emit s _ rfl h
  · split
    · split
      · exact undelivered_show_busy s _ h
      · exact undelivered_complete _ _
    · simp only []
      split
      · exact undelivered_congr s _ h rfl rfl (by simp [UnmountSys.emit, deliveries])
      · exact undelivered_complete _ _

/-- The invariant `Undelivered` survives umount_command_cb. -/
theorem undelivered_umount_command_cb (s : UnmountSys) (res : SpawnResult (Option String))
    (h : Undelivered s) : Undelivered (umount_command_cb s res) := by
  unfold umount_command_cb
  split
  · exact undelivered_emit s _ rfl h
  · split
    · exact undelivered_complete _ _
    · split
      · exact undelivered_complete _ _
      · split
        · exact undelivered_show_busy s _ h
        · exact undelivered_complete _ _

/-- The invariant `Undelivered` survives lsof_command_cb. -/
theorem undelivered_lsof_command_cb (s : UnmountSys) (res : SpawnResult String)
    (h : Undelivered s) : Undelivered (lsof_command_cb s res) := by
  unfold lsof_command_cb
  split
  · exact undelivered_emit s _ rfl h
  · apply undelivered_unref
    split
    · exact undelivered_congr s _ h (show_processes_prompt_spec s _).1
        (show_processes_prompt_spec s _).2.1 (show_processes_prompt_spec s _).2.2
    · exact h

/-- The invariant `Undelivered` survives lock_cb. -/
theorem undelivered_lock_cb (s : UnmountSys) (error : Option GError) (h : Undelivered s) :
    Undelivered (lock_cb s error) := by
  unfold lock_cb
  split
  · exact undelivered_emit s _ rfl h
  · exact undelivered_complete _ _

/-- The invariant `Undelivered` survives on_retry_timer_cb. -/
theorem undelivered_on_retry_timer_cb (s : UnmountSys) (source_id : Nat) (h : Undelivered s) :
    Undelivered (on_retry_timer_cb s source_id) := by
  unfold on_retry_timer_cb
  simp only []
  split
  · exact undelivered_emit _ _ rfl h
  · split
    · exact h
    · exact undelivered_unmount_do _ _ h

/-- The invariant `Undelivered` survives on_mount_op_reply. -/
theorem undelivered_on_mount_op_reply (s : UnmountSys) (result : GMountOperationResult)
    (choice : Int) (h : Undelivered s) : Undelivered (on_mount_op_reply s result choice) := by
  unfold on_mount_op_reply
  split
  · exact undelivered_emit s _ rfl h
  · simp only []
    split
    · exact undelivered_complete _ _
    · split
      · apply undelivered_unmount_do
        exact undelivered_congr s _ h rfl rfl (by simp [disconnect_reply_handler, deliveries])
      · exact undelivered_complete _ _

/-- The invariant `Undelivered` survives one event. -/
theorem undelivered_step (s s' : UnmountSys) (e : Event) (h : Undelivered s)
    (hs : step s e = some s') : Undelivered s' := by
  cases e with
  | unmount_finished error =>
    simp only [step] at hs
    split at hs
    · cases hs
      exact undelivered_unmount_cb _ _ _ h
    · cases hs
  | umount_command_finished res =>
    simp only [step] at hs
    split at hs
    · cases hs
      exact undelivered_umount_command_cb _ _ h
    · cases hs
  | lsof_command_finished res =>
    simp only [step] at hs
    split at hs
    · cases hs
      exact undelivered_lsof_command_cb _ _ h
    · cases hs
  | lock_finished error =>
    simp only [step] at hs
    split at hs
    · cases hs
      exact undelivered_lock_cb _ _ h
    · cases hs
  | retry_timer =>
    simp only [step] at hs
    split at hs
    · cases hs
      exact undelivered_on_retry_timer_cb _ _ h
    · cases hs
  | mount_op_reply result choice =>
    simp only [step] at hs
    split at hs
    · cases hs
    · cases hs
      exact undelivered_on_mount_op_reply _ _ _ h

/-- The invariant `Undelivered` survives every event sequence. -/
theorem undelivered_run (events : List Event) (s s' : UnmountSys) (h : Undelivered s)
    (hs : run_events s events = some s') : Undelivered s' := by
  induction events generalizing s with
  | nil =>
    simp only [run_events, Option.some.injEq] at hs
    subst hs
    exact h
  | cons e rest ih =>
    simp only [run_events] at hs
    split at hs
    · rename_i s1 h1
      exact ih s1 (undelivered_step s s1 e h h1) hs
    · cases hs

/-- The invariant `Undelivered` holds when `gvfs_udisks2_mount_unmount_with_operation` returns. -/
theorem undelivered_request (w : World) (mount : GVfsUDisks2Mount) (flags : Nat)
    (mount_operation : Option GMountOperation) (cancellable : Option Nat) :
    Undelivered
      (gvfs_udisks2_mount_unmount_with_operation w mount flags mount_operation cancellable) := by
  unfold gvfs_udisks2_mount_unmount_with_operation
  simp only []
  split
  · exact undelivered_complete _ _
  · split
    · exact undelivered_complete _ _
    · intro _
      exact ⟨rfl, rfl⟩
    · apply undelivered_unmount_do
      intro _
      exact ⟨rfl, rfl⟩

/-- A completed request satisfies the invariant. -/
theorem live_of_completed (k : Int) (s : UnmountSys) (h : s.data.completed = true) :
    LiveWith k s := by
  intro h'
  rw [h] at h'
  exact absurd h' (by decide)

/-- A released context belongs to a completed request. -/
theorem live_of_freed (k : Int) (k' : Int) (s s' : UnmountSys) (h : LiveWith k s)
    (hf : s.freed = true) (hc : s'.data.completed = s.data.completed) : LiveWith k' s' := by
  intro h'
  rw [hc] at h'
  have := (h h').1
  rw [hf] at this
  exact absurd this (by decide)

/-- The invariant only looks at the flag, the release mark, the count and the outstanding `lsof`
commands. -/
theorem live_congr (k : Int) (s s' : UnmountSys) (h : LiveWith k s)
    (hc : s'.data.completed = s.data.completed) (hf : s'.freed = s.freed)
    (hr : s'.data.ref_count = s.data.ref_count)
    (hp : lsof_outstanding s' = lsof_outstanding s) : LiveWith k s' := by
  intro h'
  rw [hc] at h'
  rw [hf, hr, hp]
  exact h h'

/-- The invariant `LiveWith` survives complete_and_unref. -/
theorem live_complete (k : Int) (s : UnmountSys) (in_idle : Bool) :
    LiveWith k (complete_and_unref s in_idle) :=
  live_of_completed k _ (complete_and_unref_spec s in_idle).1

/-- The invariant `LiveWith` survives unmount_do. -/
theorem live_unmount_do (k : Int) (s : UnmountSys) (force : Bool) (h : LiveWith k s) :
    LiveWith k (unmount_do s force) := by
  cases hf : s.data.filesystem with
  | none =>
    exact live_congr k s _ h (by simp [unmount_do, hf]) (by simp [unmount_do, hf])
      (by simp [unmount_do, hf]) (by simp [unmount_do, hf, lsof_outstanding])
  | some fs =>
    exact live_congr k s _ h (by simp [unmount_do, hf]) (by simp [unmount_do, hf])
      (by simp [unmount_do, hf]) (by simp [unmount_do, hf, lsof_outstanding])

/-- The invariant `LiveWith` survives unmount_show_busy, which takes a reference for the `lsof`
command. -/
theorem live_show_busy (k : Int) (s : UnmountSys) (mount_point : Option String)
    (h : LiveWith k s) : LiveWith k (unmount_show_busy s mount_point) := by
  intro h'
  have h0 := h h'
  refine ⟨h0.1, ?_⟩
  simp only [unmount_show_busy, unmount_data_ref, lsof_outstanding, List.count_append] at *
  rw [h0.2]
  simp
  omega

/-- Dropping a reference that is not the last one. -/
theorem live_unref (k : Int) (s : UnmountSys) (hk : 1 ≤ k) (h : LiveWith (k + 1) s) :
    LiveWith k (unmount_data_unref s) := by
  intro h'
  rw [(unmount_data_unref_spec s).1] at h'
  obtain ⟨hf, hr⟩ := h h'
  have hne : ¬ (s.data.ref_count - 1 = 0) := by
    rw [hr]
    omega
  simp only [unmount_data_unref, beq_iff_eq, hne, if_false, lsof_outstanding]
  refine ⟨hf, ?_⟩
  rw [hr]
  simp only [lsof_outstanding]
  omega

/-- The callback `lsof_command_cb` returns the reference taken for it. -/
theorem live_lsof_command_cb (s : UnmountSys) (res : SpawnResult String) (h : LiveWith 2 s) :
    LiveWith 1 (lsof_command_cb s res) := by
  unfold lsof_command_cb
  split
  · rename_i hf
    exact live_of_freed 2 1 s _ h hf rfl
  · apply live_unref 1 _ (le_refl 1)
    split
    · intro h'
      rw [(show_processes_prompt_spec s _).1] at h'
      have h0 := h h'
      have hs : (show_processes_prompt s (lsof_processes res)).freed = s.freed ∧
          (show_processes_prompt s (lsof_processes res)).data.ref_count = s.data.ref_count ∧
          (show_processes_prompt s (lsof_processes res)).pending = s.pending := by
        unfold show_processes_prompt
        simp only []
        cases hop : s.data.mount_operation <;>
          by_cases h1 : s.data.mount_op_reply_handler_id = 0 <;>
          by_cases h2 : s.data.retry_unmount_timer_id = 0 <;>
          simp [hop, h1, h2, UnmountSys.emit, UnmountSys.fresh_id]
      simp only [lsof_outstanding, hs.1, hs.2.1, hs.2.2]
      exact h0
    · exact h

/-- The invariant `LiveWith` survives unmount_cb. -/
theorem live_unmount_cb (s : UnmountSys) (fs : UDisksFilesystem) (error : Option GError)
    (h : LiveWith 1 s) : LiveWith 1 (unmount_cb s fs error) := by
  unfold unmount_cb
  split
  · rename_i hf
    exact live_of_freed 1 1 s _ h hf rfl
  · split
    · split
      · exact live_show_busy 1 s _ h
      · exact live_complete 1 _ _
    · simp only []
      split
      · exact live_congr 1 s _ h rfl rfl rfl (by simp [lsof_outstanding, UnmountSys.emit])
      · exact live_complete 1 _ _

/-- The invariant `LiveWith` survives umount_command_cb. -/
theorem live_umount_command_cb (s : UnmountSys) (res : SpawnResult (Option String))
    (h : LiveWith 1 s) : LiveWith 1 (umount_command_cb s res) := by
  unfold umount_command_cb
  split
  · rename_i hf
    exact live_of_freed 1 1 s _ h hf rfl
  · split
    · exact live_complete 1 _ _
    · split
      · exact live_complete 1 _ _
      · split
        · exact live_show_busy 1 s _ h
        · exact live_complete 1 _ _

/-- The invariant `LiveWith` survives lock_cb. -/
theorem live_lock_cb (s : UnmountSys) (error : Option GError) (h : LiveWith 1 s) :
    LiveWith 1 (lock_cb s error) := by
  unfold lock_cb
  split
  · rename_i hf
    exact live_of_freed 1 1 s _ h hf rfl
  · exact live_complete 1 _ _

/-- The invariant `LiveWith` survives on_retry_timer_cb. -/
theorem live_on_retry_timer_cb (s : UnmountSys) (source_id : Nat) (h : LiveWith 1 s) :
    LiveWith 1 (on_retry_timer_cb s source_id) := by
  unfold on_retry_timer_cb
  simp only []
  split
  · rename_i hf
    exact live_of_freed 1 1 s _ h hf rfl
  · split
    · exact h
    · exact live_unmount_do 1 _ _ h

/-- The invariant `LiveWith` survives on_mount_op_reply. -/
theorem live_on_mount_op_reply (s : UnmountSys) (result : GMountOperationResult)
    (choice : Int) (h : LiveWith 1 s) : LiveWith 1 (on_mount_op_reply s result choice) := by
  unfold on_mount_op_reply
  split
  · rename_i hf
    exact live_of_freed 1 1 s _ h hf rfl
  · simp only []
    split
    · exact live_complete 1 _ _
    · split
      · apply live_unmount_do
        exact h
      · exact live_complete 1 _ _

/-- Taking a call other than `lsof` off the outstanding list. -/
theorem live_erase (s : UnmountSys) (p : Pending) (hp : p ≠ Pending.lsof_command)
    (h : LiveWith 1 s) : LiveWith 1 { s with pending := s.pending.erase p } :=
  live_congr 1 s _ h rfl rfl rfl (by
    simp only [lsof_outstanding]
    rw [List.count_erase_of_ne (Ne.symm hp)])

/-- Taking an `lsof` command off the outstanding list. -/
theorem live_erase_lsof (s : UnmountSys) (hmem : Pending.lsof_command ∈ s.pending)
    (h : LiveWith 1 s) : LiveWith 2 { s with pending := s.pending.erase Pending.lsof_command } := by
  intro h'
  obtain ⟨hf, hr⟩ := h h'
  refine ⟨hf, ?_⟩
  have hpos : 0 < s.pending.count Pending.lsof_command := List.count_pos_iff.mpr hmem
  simp only [lsof_outstanding, List.count_erase_self] at *
  rw [hr]
  omega

/-- The invariant `LiveWith` survives one event. -/
theorem live_step (s s' : UnmountSys) (e : Event) (h : LiveWith 1 s)
    (hs : step s e = some s') : LiveWith 1 s' := by
  cases e with
  | unmount_finished error =>
    simp only [step] at hs
    split at hs
    · cases hs
      exact live_unmount_cb _ _ _ (live_erase s _ (by simp) h)
    · cases hs
  | umount_command_finished res =>
    simp only [step] at hs
    split at hs
    · cases hs
      exact live_umount_command_cb _ _ (live_erase s _ (by simp) h)
    · cases hs
  | lsof_command_finished res =>
    simp only [step] at hs
    split at hs
    · rename_i hmem
      cases hs
      exact live_lsof_command_cb _ _ (live_erase_lsof s hmem h)
    · cases hs
  | lock_finished error =>
    simp only [step] at hs
    split at hs
    · rename_i p hp
      cases hs
      refine live_lock_cb _ _ (live_erase s p ?_ h)
      intro hpe
      subst hpe
      have := List.find?_some hp
      simp at this
    · cases hs
  | retry_timer =>
    simp only [step] at hs
    split at hs
    · cases hs
      exact live_on_retry_timer_cb _ _ h
    · cases hs
  | mount_op_reply result choice =>
    simp only [step] at hs
    split at hs
    · cases hs
    · cases hs
      exact live_on_mount_op_reply _ _ _ h

/-- The invariant `LiveWith` survives every event sequence. -/
theorem live_run (events : List Event) (s s' : UnmountSys) (h : LiveWith 1 s)
    (hs : run_events s events = some s') : LiveWith 1 s' := by
  induction events generalizing s with
  | nil =>
    simp only [run_events, Option.some.injEq] at hs
    subst hs
    exact h
  | cons e rest ih =>
    simp only [run_events] at hs
    split at hs
    · rename_i s1 h1
      exact ih s1 (live_step s s1 e h h1) hs
    · cases hs

/-- The invariant `LiveWith` holds when `gvfs_udisks2_mount_unmount_with_operation` returns. -/
theorem live_request (w : World) (mount : GVfsUDisks2Mount) (flags : Nat)
    (mount_operation : Option GMountOperation) (cancellable : Option Nat) :
    LiveWith 1
      (gvfs_udisks2_mount_unmount_with_operation w mount flags mount_operation cancellable) := by
  unfold gvfs_udisks2_mount_unmount_with_operation
  simp only []
  split
  · exact live_complete 1 _ _
  · split
    · exact live_complete 1 _ _
    · intro _
      exact ⟨rfl, by simp [lsof_outstanding]⟩
    · apply live_unmount_do
      intro _
      exact ⟨rfl, by simp [lsof_outstanding]⟩

/-! ## Locking after unmount -/

/-- An outstanding lock RPC is found. -/
theorem find_lock_rpc_isSome (l : List Pending) (enc : UDisksEncrypted)
    (h : Pending.lock_rpc enc ∈ l) :
    ∃ p, l.find? (fun p => match p with
                          | Pending.lock_rpc _ => true
                          | _ => false) = some p := by
  induction l with
  | nil => cases h
  | cons a l ih =>
    cases a with
    | lock_rpc e => exact ⟨Pending.lock_rpc e, by simp [List.find?]⟩
    | unmount_rpc fs =>
      have h' : Pending.lock_rpc enc ∈ l := by simpa using h
      obtain ⟨p, hp⟩ := ih h'
      exact ⟨p, by simpa [List.find?] using hp⟩
    | umount_command =>
      have h' : Pending.lock_rpc enc ∈ l := by simpa using h
      obtain ⟨p, hp⟩ := ih h'
      exact ⟨p, by simpa [List.find?] using hp⟩
    | lsof_command =>
      have h' : Pending.lock_rpc enc ∈ l := by simpa using h
      obtain ⟨p, hp⟩ := ih h'
      exact ⟨p, by simpa [List.find?] using hp⟩

/-- On a live context without a stored error `lock_cb` delivers exactly the result of the lock RPC. -/
theorem lock_cb_delivers (s : UnmountSys) (error : Option GError) (hfreed : s.freed = false)
    (he : s.data.simple_error = none) :
    deliveries (lock_cb s error).log = deliveries s.log ++ [error] := by
  cases error with
  | none =>
    simp only [lock_cb, hfreed, Bool.false_eq_true, if_false]
    rw [(complete_and_unref_spec _ _).2.2, he]
  | some e =>
    simp only [lock_cb, hfreed, Bool.false_eq_true, if_false]
    rw [(complete_and_unref_spec _ _).2.2]
    rfl

/-- The undisturbed course of locking: in every state an unmount request can reach in which the
request is not completed, an encrypted handle was resolved and an unmount RPC is outstanding,
the successful completion of that RPC refreshes the monitor and issues a lock RPC on that handle
with an empty options map, without delivering anything; and when the completion of the lock RPC
is the very next event, it delivers exactly what the lock RPC reports as the one terminal
result.  Nothing is said here about events that arrive while the lock RPC is in flight. -/
theorem lock_follows_unmount (w : World) (mount : GVfsUDisks2Mount) (flags : Nat)
    (mount_operation : Option GMountOperation) (cancellable : Option Nat)
    (events : List Event) (s : UnmountSys) (enc : UDisksEncrypted) (fs : UDisksFilesystem)
    (hrun : run_events
      (gvfs_udisks2_mount_unmount_with_operation w mount flags mount_operation cancellable)
      events = some s)
    (hcompleted : s.data.completed = false)
    (henc : s.data.encrypted = some enc)
    (hpending : first_unmount_rpc s.pending = some fs) :
    ∃ s1, step s (Event.unmount_finished none) = some s1 ∧
      s1.log = s.log ++ [Effect.monitor_update, Effect.call_lock enc []] ∧
      deliveries s1.log = [] ∧
      Pending.lock_rpc enc ∈ s1.pending ∧
      ∀ error : Option GError,
        ∃ s2, step s1 (Event.lock_finished error) = some s2 ∧ deliveries s2.log = [error] := by
  have hinv := undelivered_run events _ s (undelivered_request w mount flags mount_operation
    cancellable) hrun
  obtain ⟨herr, hdel⟩ := hinv hcompleted
  have hfreed : s.freed = false :=
    ((live_run events _ s (live_request w mount flags mount_operation cancellable) hrun)
      hcompleted).1
  have hcb : unmount_cb { s with pending := s.pending.erase (Pending.unmount_rpc fs) } fs none =
      { s with pending := s.pending.erase (Pending.unmount_rpc fs) ++ [Pending.lock_rpc enc],
               log := s.log ++ [Effect.monitor_update, Effect.call_lock enc []] } := by
    simp [unmount_cb, hfreed, henc, UnmountSys.emit]
  have hstep : step s (Event.unmount_finished none) =
      some { s with pending := s.pending.erase (Pending.unmount_rpc fs) ++ [Pending.lock_rpc enc],
                    log := s.log ++ [Effect.monitor_update, Effect.call_lock enc []] } := by
    simp only [step, hpending, hcb]
  have hdel1 : deliveries (s.log ++ [Effect.monitor_update, Effect.call_lock enc []]) = [] := by
    rw [deliveries_append, hdel]
    rfl
  refine ⟨_, hstep, rfl, hdel1, by simp, ?_⟩
  intro error
  obtain ⟨p, hp⟩ := find_lock_rpc_isSome
    (s.pending.erase (Pending.unmount_rpc fs) ++ [Pending.lock_rpc enc]) enc (by simp)
  have hstep2 : step
      { s with pending := s.pending.erase (Pending.unmount_rpc fs) ++ [Pending.lock_rpc enc],
               log := s.log ++ [Effect.monitor_update, Effect.call_lock enc []] }
      (Event.lock_finished error) =
      some (lock_cb
        { s with pending := (s.pending.erase (Pending.unmount_rpc fs) ++
                   [Pending.lock_rpc enc]).erase p,
                 log := s.log ++ [Effect.monitor_update, Effect.call_lock enc []] } error) := by
    simp only [step, hp]
  refine ⟨_, hstep2, ?_⟩
  rw [lock_cb_delivers _ error (by exact hfreed) (by exact herr)]
  simp only [hdel1, List.nil_append]

/-- An instance of the undisturbed course: the request on the encrypted sample volume, right
after the call. -/
theorem lock_follows_unmount_witness :
    run_events sample_encrypted_request [] = some sample_encrypted_request ∧
    sample_encrypted_request.data.completed = false ∧
    sample_encrypted_request.data.encrypted = some sample_encrypted ∧
    first_unmount_rpc sample_encrypted_request.pending = some sample_filesystem ∧
    ∃ s1, step sample_encrypted_request (Event.unmount_finished none) = some s1 ∧
      s1.log = sample_encrypted_request.log ++
        [Effect.monitor_update, Effect.call_lock sample_encrypted []] ∧
      deliveries s1.log = [] ∧
      Pending.lock_rpc sample_encrypted ∈ s1.pending ∧
      ∀ error : Option GError,
        ∃ s2, step s1 (Event.lock_finished error) = some s2 ∧ deliveries s2.log = [error] :=
  ⟨rfl, by decide, by decide, by decide,
    lock_follows_unmount sample_world sample_encrypted_mount_sys.mount 0 (some sample_operation)
      none [] sample_encrypted_request sample_encrypted sample_filesystem rfl (by decide)
      (by decide) (by decide)⟩

/-! ## Monitor refresh, eject, command failure and content type -/

/-- Refresh counts add up over concatenated logs. -/
theorem refresh_count_append (l₁ l₂ : List Effect) :
    refresh_count (l₁ ++ l₂) = refresh_count l₁ + refresh_count l₂ := by
  simp [refresh_count]

/-- The function `unmount_data_unref` appends `unref_effects` to the log; they contain neither a
delivery nor a monitor refresh. -/
theorem unref_effects_spec (s : UnmountSys) :
    (unmount_data_unref s).log = s.log ++ unref_effects s ∧
    deliveries (unref_effects s) = [] ∧ refresh_count (unref_effects s) = 0 := by
  refine ⟨?_, ?_, ?_⟩
  · by_cases h0 : s.data.ref_count - 1 = 0 <;>
      by_cases h1 : s.data.mount_op_reply_handler_id > 0 <;>
      by_cases h2 : s.data.retry_unmount_timer_id > 0 <;>
      cases hop : s.data.mount_operation <;>
      simp [unmount_data_unref, unref_effects, h0, h1, h2, hop]
  · by_cases h0 : s.data.ref_count - 1 = 0 <;>
      by_cases h1 : s.data.mount_op_reply_handler_id > 0 <;>
      by_cases h2 : s.data.retry_unmount_timer_id > 0 <;>
      cases hop : s.data.mount_operation <;>
      simp [unref_effects, h0, h1, h2, hop, deliveries]
  · by_cases h0 : s.data.ref_count - 1 = 0 <;>
      by_cases h1 : s.data.mount_op_reply_handler_id > 0 <;>
      by_cases h2 : s.data.retry_unmount_timer_id > 0 <;>
      cases hop : s.data.mount_operation <;>
      simp [unref_effects, h0, h1, h2, hop, refresh_count]

/-- Completing appends the delivery to the log, followed only by clean-up effects. -/
theorem complete_and_unref_log (s : UnmountSys) (in_idle : Bool) :
    ∃ rest, (complete_and_unref s in_idle).log =
        s.log ++ Effect.complete in_idle s.data.simple_error :: rest ∧
      deliveries rest = [] ∧ refresh_count rest = 0 := by
  have h := unref_effects_spec
    { s.emit [Effect.complete in_idle s.data.simple_error] with
      data := { (s.emit [Effect.complete in_idle s.data.simple_error]).data with
                completed := true } }
  refine ⟨_, ?_, h.2.1, h.2.2⟩
  unfold complete_and_unref
  simp only []
  rw [h.1]
  simp [UnmountSys.emit]

/-- Completing delivers the stored error and triggers no monitor refresh. -/
theorem complete_and_unref_counts (s : UnmountSys) (in_idle : Bool) :
    deliveries (complete_and_unref s in_idle).log = deliveries s.log ++ [s.data.simple_error] ∧
    refresh_count (complete_and_unref s in_idle).log = refresh_count s.log := by
  obtain ⟨rest, h1, h2, h3⟩ := complete_and_unref_log s in_idle
  refine ⟨(complete_and_unref_spec s in_idle).2.2, ?_⟩
  rw [h1, refresh_count_append]
  have : refresh_count (Effect.complete in_idle s.data.simple_error :: rest) =
      refresh_count rest := by
    simp [refresh_count]
  rw [this, h3]
  rfl

/-- Completing with an error delivers that error and triggers no monitor refresh. -/
theorem fail_with_counts (s : UnmountSys) (e : GError) (in_idle : Bool) :
    deliveries (complete_and_unref (set_error s e) in_idle).log = deliveries s.log ++ [some e] ∧
    refresh_count (complete_and_unref (set_error s e) in_idle).log = refresh_count s.log :=
  complete_and_unref_counts (set_error s e) in_idle

/-- C12, counterexample: ejecting the sample mount without a volume completes with an error whose
code is G_IO_ERROR_FAILED, which is not G_IO_ERROR_NOT_SUPPORTED. -/
theorem eject_error_code_is_failed :
    gvfs_udisks2_mount_get_drive sample_volume_drive sample_plain_mount_sys.mount = none ∧
    gvfs_udisks2_mount_eject_with_operation sample_volume_drive sample_plain_mount_sys.mount 0
      none none =
      [EjectEffect.complete
        (some ⟨G_IO_ERROR, G_IO_ERROR_FAILED, "Operation not supported by backend"⟩)] ∧
    G_IO_ERROR_FAILED ≠ G_IO_ERROR_NOT_SUPPORTED := by
  decide

/-- C12, amended: for every mount that has no volume, or whose volume has no drive,
`gvfs_udisks2_mount_eject_with_operation` completes at once with the error G_IO_ERROR_FAILED
"Operation not supported by backend", invokes no drive operation, and the finish function
returns false; when a drive exists the request is passed to the drive's eject with the same
flags, operation handle and cancellable, and the finish function returns what the drive's finish
function returns. -/
theorem eject_delegates_or_fails (volume_drive : VolumePtr → Option GDrive)
    (mount : GVfsUDisks2Mount) (flags : Nat) (mount_operation : Option GMountOperation)
    (cancellable : Option Nat) :
    (gvfs_udisks2_mount_get_drive volume_drive mount = none →
      gvfs_udisks2_mount_eject_with_operation volume_drive mount flags mount_operation
        cancellable =
        [EjectEffect.complete
          (some ⟨G_IO_ERROR, G_IO_ERROR_FAILED, "Operation not supported by backend"⟩)] ∧
      ∀ drive_finish,
        gvfs_udisks2_mount_eject_with_operation_finish volume_drive mount drive_finish = false) ∧
    (∀ drive, gvfs_udisks2_mount_get_drive volume_drive mount = some drive →
      gvfs_udisks2_mount_eject_with_operation volume_drive mount flags mount_operation
        cancellable =
        [EjectEffect.drive_eject_with_operation drive flags mount_operation cancellable] ∧
      ∀ drive_finish,
        gvfs_udisks2_mount_eject_with_operation_finish volume_drive mount drive_finish =
          drive_finish) := by
  refine ⟨fun h => ?_, fun drive h => ?_⟩
  · cases hv : mount.volume with
    | none =>
      simp [gvfs_udisks2_mount_eject_with_operation,
        gvfs_udisks2_mount_eject_with_operation_finish, hv]
    | some v =>
      have hd : volume_drive v = none := by
        simpa [gvfs_udisks2_mount_get_drive, hv] using h
      simp [gvfs_udisks2_mount_eject_with_operation,
        gvfs_udisks2_mount_eject_with_operation_finish, hv, hd]
  · cases hv : mount.volume with
    | none => simp [gvfs_udisks2_mount_get_drive, hv] at h
    | some v =>
      have hd : volume_drive v = some drive := by
        simpa [gvfs_udisks2_mount_get_drive, hv] using h
      simp [gvfs_udisks2_mount_eject_with_operation,
        gvfs_udisks2_mount_eject_with_operation_finish, hv, hd]

/-- Witness for C12: the sample mount, whose volume 1 has a drive. -/
theorem eject_delegates_or_fails_witness :
    gvfs_udisks2_mount_get_drive sample_volume_drive sample_mount_sys.mount =
      some ⟨5, some "optical_dvd_plus_r"⟩ ∧
    gvfs_udisks2_mount_eject_with_operation sample_volume_drive sample_mount_sys.mount 1
      (some sample_operation) none =
      [EjectEffect.drive_eject_with_operation ⟨5, some "optical_dvd_plus_r"⟩ 1
        (some sample_operation) none] :=
  ⟨by decide,
    ((eject_delegates_or_fails sample_volume_drive sample_mount_sys.mount 1
      (some sample_operation) none).2 ⟨5, some "optical_dvd_plus_r"⟩ (by decide)).1⟩

/-- A format without a percent sign prints as itself. -/
theorem format_no_args_plain (l : List Char) (h : '%' ∉ l) : format_no_args l = (l, false) := by
  induction l with
  | nil => rfl
  | cons c rest ih =>
    have hc : c ≠ '%' := fun hc => h (by simp [hc])
    have hr : '%' ∉ rest := fun hr => h (by simp [hr])
    have ih' := ih hr
    unfold format_no_args
    split
    · rename_i heq
      cases heq
    · rename_i heq
      simp only [List.cons.injEq] at heq
      exact absurd heq.1 hc
    · rename_i heq
      simp only [List.cons.injEq] at heq
      exact absurd heq.1 hc
    · rename_i c' rest' _ _ heq
      simp only [List.cons.injEq] at heq
      obtain ⟨h1, h2⟩ := heq
      subst h1 h2
      simp [ih']

/-- C13, failing input: `umount` fails with a standard error that names a mount point containing a
percent sign. The text is used as the format of `g_simple_async_result_set_error`: "%%" is
delivered as "%", and at "%s" the formatter reads an argument that was never passed. -/
theorem stderr_used_as_format :
    sample_command_request.pending = [Pending.umount_command] ∧
    (strstr "umount: /media/100%%: not mounted.\n".data "device is busy".data ||
      strstr "umount: /media/100%%: not mounted.\n".data "target is busy".data) = false ∧
    (run_events sample_command_request
      [Event.umount_command_finished
        (SpawnResult.finished 8192 (some "umount: /media/100%%: not mounted.\n"))]).map
      (fun s => deliveries s.log) =
      some [some ⟨G_IO_ERROR, G_IO_ERROR_FAILED, "umount: /media/100%: not mounted.\n"⟩] ∧
    (run_events sample_command_request
      [Event.umount_command_finished
        (SpawnResult.finished 8192 (some "umount: /media/%s: not mounted.\n"))]).map
      (fun s => (deliveries s.log, decide (Effect.missing_format_argument ∈ s.log))) =
      some ([some ⟨G_IO_ERROR, G_IO_ERROR_FAILED, "umount: /media/"⟩], true) := by
  decide

/-- For a standard error without a percent sign the delivered message is exactly the captured text. -/
theorem umount_failure_message_plain (s : UnmountSys) (status : Nat) (err : String)
    (hfreed : s.freed = false)
    (hexit : (WIFEXITED status && WEXITSTATUS status == 0) = false)
    (hbusy : (strstr err.data "device is busy".data ||
      strstr err.data "target is busy".data) = false)
    (hplain : '%' ∉ err.data) :
    deliveries (umount_command_cb s (SpawnResult.finished status (some err))).log =
      deliveries s.log ++ [some ⟨G_IO_ERROR, G_IO_ERROR_FAILED, err⟩] := by
  simp only [umount_command_cb, hfreed, Bool.false_eq_true, if_false, hexit, hbusy,
    format_no_args_plain err.data hplain]
  rw [(fail_with_counts _ _ _).1]

/-- The merge leaves the constructor-written fields alone. -/
theorem constructed_fields_update (s : MountSys) :
    constructed_fields s.update.1.mount = constructed_fields s.mount := by
  simp [MountSys.update, update_mount, constructed_fields]

/-- A merge followed by a notification leaves the constructor-written fields alone. -/
theorem constructed_fields_update_and_notify (s : MountSys) :
    constructed_fields (update_and_notify s).mount = constructed_fields s.mount := by
  by_cases hc : s.update.2 = true
  · simp [update_and_notify, hc, emit_changed, constructed_fields_update]
  · simp [update_and_notify, hc, constructed_fields_update]

/-- The function `gvfs_udisks2_mount_unset_volume` leaves the constructor-written fields alone. -/
theorem constructed_fields_unset_volume (s : MountSys) (v : Option VolumePtr) :
    constructed_fields (gvfs_udisks2_mount_unset_volume s v).mount =
      constructed_fields s.mount := by
  unfold gvfs_udisks2_mount_unset_volume
  split
  · cases hv : s.mount.volume <;> simp [emit_changed, constructed_fields]
  · rfl

/-- The function `gvfs_udisks2_mount_set_volume` leaves the constructor-written fields alone. -/
theorem constructed_fields_set_volume (s : MountSys) (v : Option VolumePtr) :
    constructed_fields (gvfs_udisks2_mount_set_volume s v).mount =
      constructed_fields s.mount := by
  unfold gvfs_udisks2_mount_set_volume
  split
  · have h1 : constructed_fields
        (if s.mount.volume != none then gvfs_udisks2_mount_unset_volume s s.mount.volume
          else s).mount = constructed_fields s.mount := by
      split
      · exact constructed_fields_unset_volume s _
      · rfl
    simp only [emit_changed]
    rw [constructed_fields_update]
    cases v <;> simpa [constructed_fields] using h1
  · rfl

/-- The function `gvfs_udisks2_mount_unmounted` leaves the constructor-written fields alone. -/
theorem constructed_fields_unmounted (s : MountSys) :
    constructed_fields (gvfs_udisks2_mount_unmounted s).mount = constructed_fields s.mount := by
  unfold gvfs_udisks2_mount_unmounted
  split
  · simp [emit_changed, constructed_fields]
  · rfl

/-- Any number of `on_volume_changed` calls leaves the constructor-written fields alone. -/
theorem constructed_fields_foldl (l : List VolumePtr) (s : MountSys) :
    constructed_fields (l.foldl (fun acc _ => on_volume_changed acc) s).mount =
      constructed_fields s.mount := by
  induction l generalizing s with
  | nil => rfl
  | cons a l ih =>
    simp only [List.foldl_cons]
    rw [ih, on_volume_changed, constructed_fields_update_and_notify]

/-- Every operation leaves the constructor-written fields alone. -/
theorem constructed_fields_apply (s : MountSys) (op : MountOp) :
    constructed_fields (s.apply op).mount = constructed_fields s.mount := by
  cases op with
  | volume_changed v icon name =>
    simp only [MountSys.apply]
    rw [constructed_fields_foldl]
  | set_volume v => exact constructed_fields_set_volume s v
  | unset_volume v => exact constructed_fields_unset_volume s v
  | unmounted => exact constructed_fields_unmounted s
  | got_bdmv icon name =>
    simp only [MountSys.apply, got_bdmv_volume_info_cb]
    rw [constructed_fields_update_and_notify]
    rfl
  | got_xdg icon name =>
    simp only [MountSys.apply, got_xdg_volume_info_cb]
    rw [constructed_fields_update_and_notify]
    rfl
  | got_autorun icon =>
    simp only [MountSys.apply, got_autorun_info_cb]
    rw [constructed_fields_update_and_notify]
    rfl

/-- Every sequence of operations leaves the constructor-written fields alone. -/
theorem constructed_fields_run (ops : List MountOp) (s : MountSys) :
    constructed_fields (s.run ops).mount = constructed_fields s.mount := by
  induction ops generalizing s with
  | nil => rfl
  | cons op ops ih =>
    simp only [MountSys.run, List.foldl_cons] at ih ⊢
    rw [ih, constructed_fields_apply]

/-- A mount constructed without a mount record stays a burn mount without a device file. -/
theorem burn_mount_fields (w : World) (monitor : Nat) (volume : Option VolumePtr) (now : Int)
    (s : MountSys) (ops : List MountOp)
    (h : gvfs_udisks2_mount_new w monitor none volume now = some s) :
    (s.run ops).mount.is_burn_mount = true ∧ (s.run ops).mount.device_file = none := by
  have hs : s.mount.is_burn_mount = true ∧ s.mount.device_file = none := by
    cases volume <;>
      simp [gvfs_udisks2_mount_new, MountSys.update, update_mount, gvfs_udisks2_mount_init] at h <;>
      subst h <;> exact ⟨rfl, rfl⟩
  have hr := constructed_fields_run ops s
  simp only [constructed_fields, Prod.mk.injEq] at hr
  exact ⟨hr.1.trans hs.1, hr.2.1.trans hs.2⟩

/-- C14: for a virtual burn mount (constructed without a mount record, after any sequence of
operations) whose drive reports the media string m, `gvfs_udisks2_mount_guess_content_type_sync`
returns exactly one content type, decided by the first matching prefix of m: "optical_dvd" gives
x-content/blank-dvd, "optical_hddvd" gives x-content/blank-hddvd, "optical_bd" gives
x-content/blank-bd, anything else x-content/blank-cd; it returns the null result when the mount
has no drive and when the drive reports no media string. Neither the tree probe nor the bootable
check contributes. -/
theorem burn_mount_content_type (w : World) (monitor : Nat) (volume : Option VolumePtr)
    (now : Int) (s : MountSys) (ops : List MountOp)
    (volume_drive : VolumePtr → Option GDrive)
    (guess_for_tree : Option GFile → Option (List String)) (bootable : String → Option Bool)
    (h : gvfs_udisks2_mount_new w monitor none volume now = some s) :
    (∀ drive media,
      gvfs_udisks2_mount_get_drive volume_drive (s.run ops).mount = some drive →
      drive.media = some media →
      gvfs_udisks2_mount_guess_content_type_sync volume_drive guess_for_tree bootable
        (s.run ops).mount =
        some [if g_str_has_prefix media "optical_dvd" then "x-content/blank-dvd"
              else if g_str_has_prefix media "optical_hddvd" then "x-content/blank-hddvd"
              else if g_str_has_prefix media "optical_bd" then "x-content/blank-bd"
              else "x-content/blank-cd"]) ∧
    (gvfs_udisks2_mount_get_drive volume_drive (s.run ops).mount = none →
      gvfs_udisks2_mount_guess_content_type_sync volume_drive guess_for_tree bootable
        (s.run ops).mount = none) ∧
    (∀ drive,
      gvfs_udisks2_mount_get_drive volume_drive (s.run ops).mount = some drive →
      drive.media = none →
      gvfs_udisks2_mount_guess_content_type_sync volume_drive guess_for_tree bootable
        (s.run ops).mount = none) := by
  obtain ⟨hb, hd⟩ := burn_mount_fields w monitor volume now s ops h
  refine ⟨fun drive media h1 h2 => ?_, fun h1 => ?_, fun drive h1 h2 => ?_⟩
  · simp only [gvfs_udisks2_mount_guess_content_type_sync, hb, hd, h1, h2, if_true]
    by_cases c1 : g_str_has_prefix media "optical_dvd" = true
    · simp [c1]
    · by_cases c2 : g_str_has_prefix media "optical_hddvd" = true
      · simp [c1, c2]
      · by_cases c3 : g_str_has_prefix media "optical_bd" = true
        · simp [c1, c2, c3]
        · simp [c1, c2, c3]
  · simp [gvfs_udisks2_mount_guess_content_type_sync, hb, hd, h1]
  · simp [gvfs_udisks2_mount_guess_content_type_sync, hb, hd, h1, h2]

/-- Witness for C14: the sample burn mount in a drive holding a blank DVD+R. -/
theorem burn_mount_content_type_witness :
    gvfs_udisks2_mount_new sample_world 0 none (some 1) 1000 = some sample_burn_mount_sys ∧
    gvfs_udisks2_mount_get_drive sample_volume_drive
      (sample_burn_mount_sys.run [MountOp.set_volume (some 1)]).mount =
      some ⟨5, some "optical_dvd_plus_r"⟩ ∧
    gvfs_udisks2_mount_guess_content_type_sync sample_volume_drive (fun _ => some ["x"])
      (fun _ => some true) (sample_burn_mount_sys.run [MountOp.set_volume (some 1)]).mount =
      some [if g_str_has_prefix "optical_dvd_plus_r" "optical_dvd" then "x-content/blank-dvd"
            else if g_str_has_prefix "optical_dvd_plus_r" "optical_hddvd" then
              "x-content/blank-hddvd"
            else if g_str_has_prefix "optical_dvd_plus_r" "optical_bd" then "x-content/blank-bd"
            else "x-content/blank-cd"] :=
  ⟨rfl, by decide,
    (burn_mount_content_type sample_world 0 (some 1) 1000 sample_burn_mount_sys
      [MountOp.set_volume (some 1)] sample_volume_drive (fun _ => some ["x"]) (fun _ => some true)
      rfl).1 ⟨5, some "optical_dvd_plus_r"⟩ "optical_dvd_plus_r" (by decide) rfl⟩

/-! ## Sort key, unmount options, command line and identification -/

/-- Appending a digit multiplies by ten and adds it. -/
theorem digits_value_append (ds : List Nat) (d : Nat) :
    digits_value (ds ++ [d]) = digits_value ds * 10 + d := by
  simp [digits_value, List.foldl_append]

/-- The digit loop of `Nat.repr` puts the decimal digits of its argument in front of the
accumulator. -/
theorem toDigitsCore_spec (fuel : Nat) :
    ∀ (n : Nat) (acc : List Char), n < fuel →
      ∃ ds, Nat.toDigitsCore 10 fuel n acc = ds.map Nat.digitChar ++ acc ∧ IsDecimal ds n := by
  induction fuel with
  | zero => intro n acc h; exact absurd h (Nat.not_lt_zero n)
  | succ fuel ih =>
    intro n acc h
    unfold Nat.toDigitsCore
    simp only []
    by_cases h0 : n / 10 = 0
    · refine ⟨[n % 10], by simp [h0], by simp, ?_, ?_⟩
      · intro d hd
        simp only [List.mem_singleton] at hd
        subst hd
        exact Nat.mod_lt _ (by decide)
      · simp only [digits_value, List.foldl_cons, List.foldl_nil]
        omega
    · have hlt : n / 10 < fuel := by omega
      obtain ⟨ds, hds, hne, hall, hval⟩ := ih (n / 10) (Nat.digitChar (n % 10) :: acc) hlt
      refine ⟨ds ++ [n % 10], by simp [h0, hds], by simp, ?_, ?_⟩
      · intro d hd
        rcases List.mem_append.mp hd with hd | hd
        · exact hall d hd
        · simp only [List.mem_singleton] at hd
          subst hd
          exact Nat.mod_lt _ (by decide)
      · rw [digits_value_append, hval]
        omega

/-- The characters `Nat.repr` prints are the decimal digits of the number, most significant first. -/
theorem repr_spec (n : Nat) :
    ∃ ds, (Nat.repr n).data = ds.map Nat.digitChar ∧ IsDecimal ds n := by
  obtain ⟨ds, h1, h2⟩ := toDigitsCore_spec (n + 1) n [] (Nat.lt_succ_self n)
  exact ⟨ds, by simpa [Nat.repr, Nat.toDigits, List.asString] using h1, h2⟩

/-- Digit characters are ordered like the digits. -/
theorem digitChar_lt_iff : ∀ a < 10, ∀ b < 10, (Nat.digitChar a < Nat.digitChar b ↔ a < b) := by
  decide

/-- Reading digits into a non-zero accumulator. -/
theorem foldl_digits_acc (ds : List Nat) (a : Nat) :
    ds.foldl (fun acc d => acc * 10 + d) a = a * 10 ^ ds.length + digits_value ds := by
  induction ds generalizing a with
  | nil => simp [digits_value]
  | cons d ds ih =>
    simp only [List.foldl_cons, List.length_cons, digits_value]
    rw [ih, ih (0 * 10 + d)]
    ring

/-- The leading digit counts ten to the number of digits that follow. -/
theorem digits_value_cons (d : Nat) (ds : List Nat) :
    digits_value (d :: ds) = d * 10 ^ ds.length + digits_value ds := by
  simp only [digits_value, List.foldl_cons]
  rw [foldl_digits_acc]
  simp [digits_value]

/-- A list of k digits denotes a number below ten to the k. -/
theorem digits_value_lt (ds : List Nat) (h : ∀ d ∈ ds, d < 10) :
    digits_value ds < 10 ^ ds.length := by
  induction ds with
  | nil => simp [digits_value]
  | cons d ds ih =>
    rw [digits_value_cons, List.length_cons, pow_succ]
    have hd : d < 10 := h d (by simp)
    have ht := ih (fun x hx => h x (by simp [hx]))
    have : d * 10 ^ ds.length ≤ 9 * 10 ^ ds.length := Nat.mul_le_mul_right _ (by omega)
    omega

/-- Among digit lists of equal length the smaller number is the lexicographically smaller list. -/
theorem digits_lex_lt (ds₁ : List Nat) :
    ∀ ds₂ : List Nat, ds₁.length = ds₂.length → (∀ d ∈ ds₁, d < 10) → (∀ d ∈ ds₂, d < 10) →
      digits_value ds₁ < digits_value ds₂ →
      ds₁.map Nat.digitChar < ds₂.map Nat.digitChar := by
  induction ds₁ with
  | nil =>
    intro ds₂ hlen _ _ hlt
    cases ds₂ with
    | nil => simp [digits_value] at hlt
    | cons b t => simp at hlen
  | cons a t₁ ih =>
    intro ds₂ hlen h1 h2 hlt
    cases ds₂ with
    | nil => simp at hlen
    | cons b t₂ =>
      have hlen' : t₁.length = t₂.length := by simpa using hlen
      have ha : a < 10 := h1 a (by simp)
      have hb : b < 10 := h2 b (by simp)
      have hv1 := digits_value_lt t₁ (fun x hx => h1 x (by simp [hx]))
      have hv2 := digits_value_lt t₂ (fun x hx => h2 x (by simp [hx]))
      rw [digits_value_cons, digits_value_cons, hlen'] at hlt
      rw [hlen'] at hv1
      simp only [List.map_cons]
      rcases Nat.lt_trichotomy a b with hab | hab | hab
      · exact List.Lex.rel ((digitChar_lt_iff a ha b hb).mpr hab)
      · subst hab
        refine List.Lex.cons ?_
        exact ih t₂ hlen' (fun x hx => h1 x (by simp [hx])) (fun x hx => h2 x (by simp [hx]))
          (by omega)
      · exfalso
        have h3 : (b + 1) * 10 ^ t₂.length ≤ a * 10 ^ t₂.length :=
          Nat.mul_le_mul_right _ hab
        rw [Nat.add_mul] at h3
        omega

/-- A common front part does not change the lexicographic order. -/
theorem list_lt_append_left (p x y : List Char) (h : x < y) : p ++ x < p ++ y := by
  induction p with
  | nil => exact h
  | cons c p ih => exact List.Lex.cons ih

/-- Decimal renderings of equal length are ordered like the numbers. -/
theorem repr_lt_of_same_length (n₁ n₂ : Nat) (hlt : n₁ < n₂)
    (hlen : (Nat.repr n₁).length = (Nat.repr n₂).length) :
    (Nat.repr n₁).data < (Nat.repr n₂).data := by
  obtain ⟨ds₁, h1, _, hall1, hv1⟩ := repr_spec n₁
  obtain ⟨ds₂, h2, _, hall2, hv2⟩ := repr_spec n₂
  have hl : ds₁.length = ds₂.length := by
    have := hlen
    simp only [String.length, h1, h2, List.length_map] at this
    exact this
  rw [h1, h2]
  exact digits_lex_lt ds₁ ds₂ hl hall1 hall2 (by rw [hv1, hv2]; exact hlt)

/-- Sort keys of timestamps with renderings of equal length are ordered like the timestamps. -/
theorem sort_key_lt_of_same_length (n₁ n₂ : Nat) (hlt : n₁ < n₂)
    (hlen : (Nat.repr n₁).length = (Nat.repr n₂).length) :
    sort_key_of (Int.ofNat n₁) < sort_key_of (Int.ofNat n₂) := by
  rw [String.lt_iff_toList_lt]
  show ("gvfs.time_detected_usec." ++ Nat.repr n₁).data < ("gvfs.time_detected_usec." ++ Nat.repr n₂).data
  rw [String.data_append, String.data_append]
  exact list_lt_append_left _ _ _ (repr_lt_of_same_length n₁ n₂ hlt hlen)

/-- A number between ten to the e-1 and ten to the e prints with e digits. -/
theorem repr_length_of_range (n e : Nat) (he : 0 < e) (hlo : 10 ^ (e - 1) ≤ n) (hhi : n < 10 ^ e) :
    (Nat.repr n).length = e := by
  apply le_antisymm (Nat.repr_length n e he hhi)
  obtain ⟨ds, h1, _, hall, hv⟩ := repr_spec n
  have hlt := digits_value_lt ds hall
  rw [hv] at hlt
  simp only [String.length, h1, List.length_map]
  by_contra hcon
  have hle : ds.length ≤ e - 1 := by omega
  have : 10 ^ ds.length ≤ 10 ^ (e - 1) := Nat.pow_le_pow_right (by decide) hle
  omega

/-- C15, counterexample: 9 < 10, but the sort key built for 9 does not compare less than the sort
key built for 10; it compares greater, because the digit 9 follows the digit 1. -/
theorem sort_key_order_fails_across_widths :
    (9 : Int) < 10 ∧ ¬ (sort_key_of 9 < sort_key_of 10) ∧ sort_key_of 10 < sort_key_of 9 ∧
    sort_key_of 9 = "gvfs.time_detected_usec.9" ∧
    sort_key_of 10 = "gvfs.time_detected_usec.10" := by
  refine ⟨by decide, ?_, ?_, by decide, by decide⟩
  · rw [String.lt_iff_toList_lt]
    decide
  · rw [String.lt_iff_toList_lt]
    decide

/-- C15, amended: for every two detection timestamps 0 <= t1 < t2 whose decimal renderings have the
same number of digits, the sort key built for t1 compares strictly less than the sort key built
for t2; this covers every pair of timestamps from 10^15 up to 10^16 - 1 microseconds. -/
theorem sort_key_monotone_same_width (t₁ t₂ : Int) (h0 : 0 ≤ t₁) (hlt : t₁ < t₂) :
    ((toString t₁).length = (toString t₂).length → sort_key_of t₁ < sort_key_of t₂) ∧
    (1000000000000000 ≤ t₁ → t₂ < 10000000000000000 → sort_key_of t₁ < sort_key_of t₂) := by
  obtain ⟨n₁, rfl⟩ := Int.eq_ofNat_of_zero_le h0
  obtain ⟨n₂, rfl⟩ := Int.eq_ofNat_of_zero_le (le_trans h0 (le_of_lt hlt))
  have hlt' : n₁ < n₂ := by exact_mod_cast hlt
  refine ⟨fun hlen => sort_key_lt_of_same_length n₁ n₂ hlt' hlen, fun hlo hhi => ?_⟩
  have hlo' : 10 ^ (16 - 1) ≤ n₁ := by
    have : (1000000000000000 : Int) ≤ (n₁ : Int) := hlo
    norm_num
    exact_mod_cast this
  have hhi' : n₂ < 10 ^ 16 := by
    have : (n₂ : Int) < 10000000000000000 := hhi
    norm_num
    exact_mod_cast this
  apply sort_key_lt_of_same_length n₁ n₂ hlt'
  rw [repr_length_of_range n₁ 16 (by decide) hlo' (by omega),
    repr_length_of_range n₂ 16 (by decide) (by omega) hhi']

/-- Witness for C15: two consecutive microseconds of the year 2023. -/
theorem sort_key_monotone_same_width_witness :
    (0 : Int) ≤ 1700000000000000 ∧ (1700000000000000 : Int) < 1700000000000001 ∧
    sort_key_of 1700000000000000 < sort_key_of 1700000000000001 :=
  ⟨by decide, by decide,
    (sort_key_monotone_same_width 1700000000000000 1700000000000001 (by decide)
      (by decide)).2 (by decide) (by decide)⟩

/-- The relation `Keeps` is reflexive. -/
theorem keeps_refl (s : UnmountSys) : Keeps s s := fun h => ⟨h, rfl⟩

/-- The relation `Keeps` is transitive. -/
theorem keeps_trans (s₁ s₂ s₃ : UnmountSys) (h₁ : Keeps s₁ s₂) (h₂ : Keeps s₂ s₃) :
    Keeps s₁ s₃ := by
  intro h
  obtain ⟨hf, hp⟩ := h₂ h
  obtain ⟨hf', hp'⟩ := h₁ hf
  exact ⟨hf', hp.trans hp'⟩

/-- A step that changes neither the release mark nor the request parameters. -/
theorem keeps_of_eq (s s' : UnmountSys) (hf : s'.freed = s.freed)
    (hp : request_params s' = request_params s) : Keeps s s' :=
  fun h => ⟨hf ▸ h, hp⟩

/-- The function `unmount_data_unref` keeps the request parameters unless it releases the context. -/
theorem keeps_unref (s : UnmountSys) : Keeps s (unmount_data_unref s) := by
  intro h
  by_cases h0 : s.data.ref_count - 1 = 0
  · simp [unmount_data_unref, h0] at h
  · simp only [unmount_data_unref, beq_iff_eq, h0, if_false] at h ⊢
    exact ⟨h, rfl⟩

/-- The function `complete_and_unref` keeps the request parameters unless it releases the context. -/
theorem keeps_complete (s : UnmountSys) (in_idle : Bool) :
    Keeps s (complete_and_unref s in_idle) := by
  unfold complete_and_unref
  simp only []
  exact keeps_trans _ _ _ (keeps_of_eq _ _ rfl rfl) (keeps_unref _)

/-- Completing with an error keeps the request parameters unless it releases the context. -/
theorem keeps_fail (s : UnmountSys) (e : GError) (in_idle : Bool) :
    Keeps s (complete_and_unref (set_error s e) in_idle) :=
  keeps_trans _ _ _ (keeps_of_eq _ _ rfl rfl) (keeps_complete _ _)

/-- The function `unmount_do` keeps the request parameters. -/
theorem keeps_unmount_do (s : UnmountSys) (force : Bool) : Keeps s (unmount_do s force) := by
  cases hf : s.data.filesystem <;>
    exact keeps_of_eq _ _ (by simp [unmount_do, hf]) (by simp [unmount_do, hf, request_params])

/-- The function `unmount_show_busy` keeps the request parameters. -/
theorem keeps_show_busy (s : UnmountSys) (mount_point : Option String) :
    Keeps s (unmount_show_busy s mount_point) :=
  keeps_of_eq _ _ rfl rfl

/-- Logging keeps the request parameters. -/
theorem keeps_emit (s : UnmountSys) (es : List Effect) : Keeps s (s.emit es) :=
  keeps_of_eq _ _ rfl rfl

/-- Showing the prompt keeps the request parameters. -/
theorem keeps_prompt (s : UnmountSys) (processes : List Int) :
    Keeps s (show_processes_prompt s processes) := by
  apply keeps_of_eq
  · unfold show_processes_prompt
    simp only []
    cases hop : s.data.mount_operation <;>
      by_cases h1 : s.data.mount_op_reply_handler_id = 0 <;>
      by_cases h2 : s.data.retry_unmount_timer_id = 0 <;>
      simp [hop, h1, h2, UnmountSys.emit, UnmountSys.fresh_id]
  · unfold show_processes_prompt
    simp only []
    cases hop : s.data.mount_operation <;>
      by_cases h1 : s.data.mount_op_reply_handler_id = 0 <;>
      by_cases h2 : s.data.retry_unmount_timer_id = 0 <;>
      simp [hop, h1, h2, UnmountSys.emit, UnmountSys.fresh_id, request_params]

/-- The callback `unmount_cb` keeps the request parameters unless it releases the context. -/
theorem keeps_unmount_cb (s : UnmountSys) (fs : UDisksFilesystem) (error : Option GError) :
    Keeps s (unmount_cb s fs error) := by
  unfold unmount_cb
  split
  · exact keeps_emit s _
  · split
    · split
      · exact keeps_show_busy s _
      · exact keeps_fail _ _ _
    · simp only []
      split
      · exact keeps_of_eq _ _ rfl rfl
      · exact keeps_trans _ _ _ (keeps_emit s _) (keeps_complete _ _)

/-- The callback `umount_command_cb` keeps the request parameters unless it releases the context. -/
theorem keeps_umount_command_cb (s : UnmountSys) (res : SpawnResult (Option String)) :
    Keeps s (umount_command_cb s res) := by
  unfold umount_command_cb
  split
  · exact keeps_emit s _
  · split
    · exact keeps_fail _ _ _
    · split
      · exact keeps_trans _ _ _ (keeps_emit s _) (keeps_complete _ _)
      · split
        · exact keeps_show_busy s _
        · apply keeps_trans _ _ _ _ (keeps_complete _ _)
          split
          · simp only []
            split
            · exact keeps_of_eq _ _ rfl rfl
            · exact keeps_of_eq _ _ rfl rfl
          · exact keeps_refl s

/-- The callback `lsof_command_cb` keeps the request parameters unless it releases the context. -/
theorem keeps_lsof_command_cb (s : UnmountSys) (res : SpawnResult String) :
    Keeps s (lsof_command_cb s res) := by
  unfold lsof_command_cb
  split
  · exact keeps_emit s _
  · apply keeps_trans _ _ _ _ (keeps_unref _)
    split
    · exact keeps_prompt s _
    · exact keeps_refl s

/-- The callback `lock_cb` keeps the request parameters unless it releases the context. -/
theorem keeps_lock_cb (s : UnmountSys) (error : Option GError) : Keeps s (lock_cb s error) := by
  unfold lock_cb
  split
  · exact keeps_emit s _
  · apply keeps_trans _ _ _ _ (keeps_complete _ _)
    split
    · exact keeps_of_eq _ _ rfl rfl
    · exact keeps_refl s

/-- The callback `on_retry_timer_cb` keeps the request parameters. -/
theorem keeps_on_retry_timer_cb (s : UnmountSys) (source_id : Nat) :
    Keeps s (on_retry_timer_cb s source_id) := by
  unfold on_retry_timer_cb
  simp only []
  split
  · exact keeps_of_eq _ _ rfl rfl
  · split
    · exact keeps_of_eq _ _ rfl rfl
    · exact keeps_trans _ _ _ (keeps_of_eq s _ rfl rfl) (keeps_unmount_do _ _)

/-- The handler `on_mount_op_reply` keeps the request parameters unless it releases the context. -/
theorem keeps_on_mount_op_reply (s : UnmountSys) (result : GMountOperationResult)
    (choice : Int) : Keeps s (on_mount_op_reply s result choice) := by
  unfold on_mount_op_reply
  split
  · exact keeps_emit s _
  · simp only []
    split
    · exact keeps_trans _ _ _ (keeps_of_eq s (disconnect_reply_handler s) rfl rfl)
        (keeps_fail _ _ _)
    · split
      · exact keeps_trans _ _ _ (keeps_of_eq s (disconnect_reply_handler s) rfl rfl)
          (keeps_unmount_do _ _)
      · exact keeps_trans _ _ _ (keeps_of_eq s (disconnect_reply_handler s) rfl rfl)
          (keeps_fail _ _ _)

/-- One event keeps the request parameters unless the context is released. -/
theorem keeps_step (s s' : UnmountSys) (e : Event) (hs : step s e = some s') : Keeps s s' := by
  cases e with
  | unmount_finished error =>
    simp only [step] at hs
    split at hs
    · cases hs
      exact keeps_trans _ _ _ (keeps_of_eq s _ rfl rfl) (keeps_unmount_cb _ _ _)
    · cases hs
  | umount_command_finished res =>
    simp only [step] at hs
    split at hs
    · cases hs
      exact keeps_trans _ _ _ (keeps_of_eq s _ rfl rfl) (keeps_umount_command_cb _ _)
    · cases hs
  | lsof_command_finished res =>
    simp only [step] at hs
    split at hs
    · cases hs
      exact keeps_trans _ _ _ (keeps_of_eq s _ rfl rfl) (keeps_lsof_command_cb _ _)
    · cases hs
  | lock_finished error =>
    simp only [step] at hs
    split at hs
    · cases hs
      exact keeps_trans _ _ _ (keeps_of_eq s _ rfl rfl) (keeps_lock_cb _ _)
    · cases hs
  | retry_timer =>
    simp only [step] at hs
    split at hs
    · cases hs
      exact keeps_on_retry_timer_cb _ _
    · cases hs
  | mount_op_reply result choice =>
    simp only [step] at hs
    split at hs
    · cases hs
    · cases hs
      exact keeps_on_mount_op_reply _ _ _

/-- Every event sequence keeps the request parameters unless the context is released. -/
theorem keeps_run (events : List Event) (s s' : UnmountSys)
    (hs : run_events s events = some s') : Keeps s s' := by
  induction events generalizing s with
  | nil =>
    simp only [run_events, Option.some.injEq] at hs
    subst hs
    exact keeps_refl s
  | cons e rest ih =>
    simp only [run_events] at hs
    split at hs
    · rename_i s1 h1
      exact keeps_trans _ _ _ (keeps_step s s1 e h1) (ih s1 hs)
    · cases hs

/-- A request whose context is still alive when the call returns carries the caller's operation
handle and flags. -/
theorem request_not_freed (w : World) (mount : GVfsUDisks2Mount) (flags : Nat)
    (mount_operation : Option GMountOperation) (cancellable : Option Nat)
    (h : (gvfs_udisks2_mount_unmount_with_operation w mount flags mount_operation
      cancellable).freed = false) :
    (gvfs_udisks2_mount_unmount_with_operation w mount flags mount_operation
      cancellable).data.mount_operation = mount_operation ∧
    (gvfs_udisks2_mount_unmount_with_operation w mount flags mount_operation
      cancellable).data.flags = flags := by
  by_cases hb : mount.is_burn_mount = true
  · simp [gvfs_udisks2_mount_unmount_with_operation, hb, complete_and_unref,
      unmount_data_unref, UnmountSys.emit] at h
  · cases hi : identify w mount with
    | error message =>
      simp [gvfs_udisks2_mount_unmount_with_operation, hb, hi, complete_and_unref,
        unmount_data_unref, UnmountSys.emit, set_error] at h
    | assertion_failed enc =>
      simp [gvfs_udisks2_mount_unmount_with_operation, hb, hi]
    | ok fs enc =>
      cases fs <;> simp [gvfs_udisks2_mount_unmount_with_operation, hb, hi, unmount_do]

/-- What the options map of `unmount_do` contains. -/
theorem unmount_options_mem (data : UnmountData) (force : Bool) :
    ((("auth.no_user_interaction", true) ∈ unmount_options data force) ↔
      data.mount_operation = none) ∧
    ((("force", true) ∈ unmount_options data force) ↔
      (force = true ∨ data.flags &&& G_MOUNT_UNMOUNT_FORCE ≠ 0)) ∧
    (∀ kv ∈ unmount_options data force,
      kv = ("auth.no_user_interaction", true) ∨ kv = ("force", true)) := by
  refine ⟨?_, ?_, ?_⟩
  · by_cases h1 : data.mount_operation = none <;>
      by_cases h2 : (force || (data.flags &&& G_MOUNT_UNMOUNT_FORCE) != 0) = true <;>
      simp [unmount_options, h1, h2]
  · by_cases h1 : data.mount_operation = none <;> cases force <;>
      by_cases h2 : data.flags &&& G_MOUNT_UNMOUNT_FORCE = 0 <;>
      simp [unmount_options, h1, h2]
  · intro kv hkv
    by_cases h1 : data.mount_operation = none <;>
      by_cases h2 : (force || (data.flags &&& G_MOUNT_UNMOUNT_FORCE) != 0) = true <;>
      simp [unmount_options, h1, h2] at hkv <;> simp [hkv]

/-- C16: every unmount attempt through the RPC path passes the options map `unmount_options`; it
contains "auth.no_user_interaction" = true if and only if the caller supplied no operation
handle, "force" = true if and only if the attempt is forced or the caller's flags include
G_MOUNT_UNMOUNT_FORCE, and nothing else. In particular, in every state a request made with an
operation handle can reach, the attempt started by an "Unmount Anyway" reply carries force =
true and omits auth.no_user_interaction. -/
theorem unmount_rpc_options (w : World) (mount : GVfsUDisks2Mount) (flags : Nat)
    (cancellable : Option Nat) (s : UnmountSys) (force : Bool) (fs : UDisksFilesystem)
    (hfs : s.data.filesystem = some fs) :
    (unmount_do s force).log =
      s.log ++ [Effect.call_unmount fs (unmount_options s.data force)] ∧
    ((("auth.no_user_interaction", true) ∈ unmount_options s.data force) ↔
      s.data.mount_operation = none) ∧
    ((("force", true) ∈ unmount_options s.data force) ↔
      (force = true ∨ s.data.flags &&& G_MOUNT_UNMOUNT_FORCE ≠ 0)) ∧
    (∀ kv ∈ unmount_options s.data force,
      kv = ("auth.no_user_interaction", true) ∨ kv = ("force", true)) ∧
    (∀ (op : GMountOperation) (events : List Event) (choice : Int),
      run_events (gvfs_udisks2_mount_unmount_with_operation w mount flags (some op) cancellable)
        events = some s →
      s.freed = false → choice ≠ 1 →
      ∃ options,
        (on_mount_op_reply s GMountOperationResult.HANDLED choice).log =
          s.log ++ [Effect.disconnect_reply s.data.mount_op_reply_handler_id,
                    Effect.call_unmount fs options] ∧
        ("force", true) ∈ options ∧ ("auth.no_user_interaction", true) ∉ options) := by
  refine ⟨by simp [unmount_do, hfs], (unmount_options_mem _ _).1, (unmount_options_mem _ _).2.1,
    (unmount_options_mem _ _).2.2, ?_⟩
  intro op events choice hrun hfreed hchoice
  obtain ⟨hf0, hp⟩ := keeps_run events _ s hrun hfreed
  have hop : s.data.mount_operation = some op := by
    have h1 := (request_not_freed w mount flags (some op) cancellable hf0).1
    have h2 := congrArg Prod.fst hp
    simp only [request_params] at h2
    rw [h2, h1]
  refine ⟨unmount_options (disconnect_reply_handler s).data true, ?_, ?_, ?_⟩
  · rw [reply_handled_other s choice hfreed hchoice]
    simp [unmount_do, disconnect_reply_handler, hfs]
  · exact (unmount_options_mem _ _).2.1.mpr (Or.inl rfl)
  · intro hmem
    have := (unmount_options_mem _ _).1.mp hmem
    simp [disconnect_reply_handler, hop] at this

/-- Witness for C16: a forced attempt from the sample prompt. -/
theorem unmount_rpc_options_witness :
    sample_prompting.data.filesystem = some sample_filesystem ∧
    (unmount_do sample_prompting true).log =
      sample_prompting.log ++
        [Effect.call_unmount sample_filesystem (unmount_options sample_prompting.data true)] ∧
    unmount_options sample_prompting.data true = [("force", true)] :=
  ⟨by decide,
    (unmount_rpc_options sample_world sample_mount_sys.mount 0 none sample_prompting true
      sample_filesystem (by decide)).1, by decide⟩

/-- The command line starts with the lazy flag exactly when the attempt is forced. -/
theorem umount_command_line_lazy (force : Bool) (mount_path : Option String) :
    "umount -l ".data.isPrefixOf (umount_command_line force mount_path).data = force := by
  cases force <;> simp [umount_command_line, String.data_append, List.isPrefixOf]

/-- C17: `unmount_do` runs the external `umount` command on the mount path when no filesystem handle
was resolved and issues the unmount RPC (and no command) when one was; the command line is
"umount ", the flag argument, and the quoted escaped mount path, where the flag argument is "-l
" if and only if the force argument is true; and the first attempt of a request on the command
path is made with force false, so without "-l", whatever flags the caller passed. -/
theorem umount_command_usage (s : UnmountSys) (force : Bool) :
    (s.data.filesystem = none →
      (unmount_do s force).log =
        s.log ++ [Effect.spawn 10 (umount_command_line force s.data.mount.mount_path)
                    SpawnCallback.umount_command_cb] ∧
      (unmount_do s force).pending = s.pending ++ [Pending.umount_command]) ∧
    (∀ fs, s.data.filesystem = some fs →
      (unmount_do s force).log =
        s.log ++ [Effect.call_unmount fs (unmount_options s.data force)] ∧
      (unmount_do s force).pending = s.pending ++ [Pending.unmount_rpc fs]) ∧
    (∀ mount_path : Option String,
      umount_command_line force mount_path =
        "umount " ++ (if force then "-l " else "") ++ " \"" ++
          print_s (mount_path.map g_strescape) ++ "\"" ∧
      "umount -l ".data.isPrefixOf (umount_command_line force mount_path).data = force) ∧
    (∀ (w : World) (mount : GVfsUDisks2Mount) (flags : Nat)
      (mount_operation : Option GMountOperation) (cancellable : Option Nat)
      (enc : Option UDisksEncrypted),
      mount.is_burn_mount = false → identify w mount = Identified.ok none enc →
      (gvfs_udisks2_mount_unmount_with_operation w mount flags mount_operation cancellable).log =
        [Effect.pre_unmount,
         Effect.spawn 10 (umount_command_line false mount.mount_path)
           SpawnCallback.umount_command_cb]) := by
  refine ⟨fun h => ?_, fun fs h => ?_, fun mount_path => ⟨rfl, umount_command_line_lazy _ _⟩, ?_⟩
  · simp [unmount_do, h]
  · simp [unmount_do, h]
  · intro w mount flags mount_operation cancellable enc hb hi
    simp [gvfs_udisks2_mount_unmount_with_operation, hb, hi, unmount_do]

/-- Witness for C17: a forced attempt of the sample request on the command path. -/
theorem umount_command_usage_witness :
    sample_command_request.data.filesystem = none ∧
    (unmount_do sample_command_request true).log =
      sample_command_request.log ++
        [Effect.spawn 10 "umount -l  \"/media/usb0\"" SpawnCallback.umount_command_cb] :=
  ⟨by decide, by
    have h := ((umount_command_usage sample_command_request true).1 (by decide)).1
    rw [h]
    decide⟩

/-- An identification error completes the fresh request and releases its context. -/
theorem request_fail_log (message : String) (data : UnmountData) (hr : data.ref_count = 1)
    (hh : data.mount_op_reply_handler_id = 0) (ht : data.retry_unmount_timer_id = 0)
    (log : List Effect) :
    (complete_and_unref
      (set_error { data := data, freed := false, pending := [], timers := [], handlers := [],
                   next_id := 0, log := log }
        { domain := G_IO_ERROR, code := G_IO_ERROR_FAILED, message := message }) false).log =
      log ++ [Effect.complete false (some ⟨G_IO_ERROR, G_IO_ERROR_FAILED, message⟩),
              Effect.data_free] ∧
    (complete_and_unref
      (set_error { data := data, freed := false, pending := [], timers := [], handlers := [],
                   next_id := 0, log := log }
        { domain := G_IO_ERROR, code := G_IO_ERROR_FAILED, message := message }) false).pending
      = [] := by
  simp [complete_and_unref, unmount_data_unref, set_error, UnmountSys.emit, hr, hh, ht]

/-- C18: for every non-burn mount whose volume has a block device, the request completes with an
error and makes no unmount attempt when the block has no D-Bus object, when the object has
neither a filesystem nor an encrypted interface, and when the object has no filesystem interface
but an encrypted one with a cleartext block whose object has no filesystem interface. When the
object has a filesystem interface, or has none but an encrypted interface with a cleartext block
whose object has one, the first attempt is an unmount RPC on exactly that filesystem handle, and
every later state of the request that is not released still holds that handle. -/
theorem identification_outcomes (w : World) (mount : GVfsUDisks2Mount) (flags : Nat)
    (mount_operation : Option GMountOperation) (cancellable : Option Nat)
    (v : VolumePtr) (block : UDisksBlock) (r : UnmountSys)
    (hr : r = gvfs_udisks2_mount_unmount_with_operation w mount flags mount_operation cancellable)
    (hburn : mount.is_burn_mount = false) (hv : mount.volume = some v)
    (hblock : w.volume_block v = some block) :
    (block.object = none →
      r.log = [Effect.pre_unmount,
               Effect.complete false
                 (some ⟨G_IO_ERROR, G_IO_ERROR_FAILED, "No object for D-Bus interface"⟩),
               Effect.data_free] ∧ r.pending = []) ∧
    (∀ o, block.object = some o → o.filesystem = none → o.encrypted = none →
      r.log = [Effect.pre_unmount,
               Effect.complete false
                 (some ⟨G_IO_ERROR, G_IO_ERROR_FAILED,
                   "No filesystem or encrypted interface on D-Bus object"⟩),
               Effect.data_free] ∧ r.pending = []) ∧
    (∀ o enc cleartext_object, block.object = some o → o.filesystem = none →
      o.encrypted = some enc → block.cleartext_block = some cleartext_object →
      cleartext_object.bind (fun c => c.filesystem) = none →
      r.log = [Effect.pre_unmount,
               Effect.complete false
                 (some ⟨G_IO_ERROR, G_IO_ERROR_FAILED,
                   "No filesystem interface on D-Bus object for cleartext device"⟩),
               Effect.data_free] ∧ r.pending = []) ∧
    (∀ o fs, block.object = some o → o.filesystem = some fs →
      r.log = [Effect.pre_unmount, Effect.call_unmount fs (unmount_options r.data false)] ∧
      r.pending = [Pending.unmount_rpc fs] ∧ r.data.filesystem = some fs ∧ r.freed = false) ∧
    (∀ o enc c fs, block.object = some o → o.filesystem = none → o.encrypted = some enc →
      block.cleartext_block = some (some c) → c.filesystem = some fs →
      r.log = [Effect.pre_unmount, Effect.call_unmount fs (unmount_options r.data false)] ∧
      r.pending = [Pending.unmount_rpc fs] ∧ r.data.filesystem = some fs ∧
      r.data.encrypted = some enc ∧ r.freed = false) ∧
    (∀ fs events s, r.data.filesystem = some fs → run_events r events = some s →
      s.freed = false → s.data.filesystem = some fs) := by
  refine ⟨?_, ?_, ?_, ?_, ?_, ?_⟩
  · intro ho
    have hi : identify w mount = Identified.error "No object for D-Bus interface" := by
      simp [identify, hv, hblock, ho]
    subst hr
    simp only [gvfs_udisks2_mount_unmount_with_operation, hburn, Bool.false_eq_true, if_false, hi]
    exact request_fail_log _ _ rfl rfl rfl _
  · intro o ho hf he
    have hi : identify w mount =
        Identified.error "No filesystem or encrypted interface on D-Bus object" := by
      simp [identify, hv, hblock, ho, hf, he]
    subst hr
    simp only [gvfs_udisks2_mount_unmount_with_operation, hburn, Bool.false_eq_true, if_false, hi]
    exact request_fail_log _ _ rfl rfl rfl _
  · intro o enc co ho hf he hc hcf
    have hi : identify w mount =
        Identified.error "No filesystem interface on D-Bus object for cleartext device" := by
      simp only [identify, hv, hblock, ho, hf, he, hc]
      rw [hcf]
    subst hr
    simp only [gvfs_udisks2_mount_unmount_with_operation, hburn, Bool.false_eq_true, if_false, hi]
    exact request_fail_log _ _ rfl rfl rfl _
  · intro o fs ho hf
    have hi : identify w mount = Identified.ok (some fs) none := by
      simp [identify, hv, hblock, ho, hf]
    subst hr
    simp [gvfs_udisks2_mount_unmount_with_operation, hburn, hi, unmount_do]
  · intro o enc c fs ho hf he hc hcf
    have hi : identify w mount = Identified.ok (some fs) (some enc) := by
      simp [identify, hv, hblock, ho, hf, he, hc, hcf]
    subst hr
    simp [gvfs_udisks2_mount_unmount_with_operation, hburn, hi, unmount_do]
  · intro fs events s hfs hrun hfreed
    obtain ⟨_, hp⟩ := keeps_run events r s hrun hfreed
    have h2 := congrArg (fun p => p.2.2.1) hp
    simp only [request_params] at h2
    rw [h2, hfs]

/-- Witness for C18: the sample mount, whose block exports a filesystem interface. -/
theorem identification_outcomes_witness :
    sample_mount_sys.mount.is_burn_mount = false ∧ sample_mount_sys.mount.volume = some 1 ∧
    sample_world.volume_block 1 = some sample_block ∧
    sample_request.log =
      [Effect.pre_unmount,
       Effect.call_unmount sample_filesystem (unmount_options sample_request.data false)] :=
  ⟨by decide, by decide, by decide,
    ((identification_outcomes sample_world sample_mount_sys.mount 0 (some sample_operation) none
      1 sample_block sample_request rfl (by decide) (by decide) (by decide)).2.2.2.1
      ⟨some sample_filesystem, none⟩ sample_filesystem rfl rfl).1⟩

/-! ## The process list and the reference count -/

/-- Digit characters are digits, not whitespace, not signs, and 48 below their code lies the digit. -/
theorem digitChar_facts : ∀ d < 10, isspace (Nat.digitChar d) = false ∧
    (Nat.digitChar d).isDigit = true ∧ Nat.digitChar d ≠ '-' ∧ Nat.digitChar d ≠ '+' ∧
    (Nat.digitChar d).toNat - 48 = d := by
  decide

/-- A whitespace character is not a digit. -/
theorem isspace_not_digit (c : Char) (h : isspace c = true) : c.isDigit = false := by
  simp only [isspace, Bool.or_eq_true, beq_iff_eq] at h
  rcases h with ((((h | h) | h) | h) | h) | h <;> subst h <;> decide

/-- Dropping a front part that satisfies the test throughout. -/
theorem dropWhile_append_all (p : Char → Bool) (l r : List Char) (h : ∀ c ∈ l, p c = true) :
    (l ++ r).dropWhile p = r.dropWhile p := by
  induction l with
  | nil => rfl
  | cons a l ih =>
    rw [List.cons_append, List.dropWhile_cons_of_pos (h a (List.mem_cons_self a l))]
    exact ih (fun c hc => h c (List.mem_cons_of_mem a hc))

/-- Taking a front part that satisfies the test throughout. -/
theorem takeWhile_append_all (p : Char → Bool) (l r : List Char) (h : ∀ c ∈ l, p c = true) :
    (l ++ r).takeWhile p = l ++ r.takeWhile p := by
  induction l with
  | nil => rfl
  | cons a l ih =>
    rw [List.cons_append, List.takeWhile_cons_of_pos (h a (List.mem_cons_self a l)),
      ih (fun c hc => h c (List.mem_cons_of_mem a hc)), List.cons_append]

/-- Nothing is taken from a text that does not start with a digit. -/
theorem stop_takeWhile (r : List Char) (hstop : ∀ c t, r = c :: t → c.isDigit = false) :
    r.takeWhile Char.isDigit = [] ∧ r.dropWhile Char.isDigit = r := by
  cases r with
  | nil => exact ⟨rfl, rfl⟩
  | cons c t =>
    have hc := hstop c t rfl
    simp [List.takeWhile_cons, List.dropWhile_cons, hc]

/-- Reading digit characters gives the number the digits denote. -/
theorem foldl_digit_chars (ds : List Nat) (h : ∀ d ∈ ds, d < 10) (a : Nat) :
    (ds.map Nat.digitChar).foldl (fun acc c => acc * 10 + (c.toNat - 48)) a =
      ds.foldl (fun acc d => acc * 10 + d) a := by
  induction ds generalizing a with
  | nil => rfl
  | cons d ds ih =>
    have hd := (digitChar_facts d (h d (by simp))).2.2.2.2
    simp only [List.map_cons, List.foldl_cons, hd]
    exact ih (fun x hx => h x (by simp [hx])) _

/-- On optional whitespace, a printed number and a rest that does not start with a digit, `strtol`
returns the number and leaves the rest. -/
theorem strtol_number (lead r : List Char) (n : Nat)
    (hlead : ∀ c ∈ lead, isspace c = true)
    (hstop : ∀ c t, r = c :: t → c.isDigit = false)
    (hn : (n : Int) ≤ LONG_MAX) :
    strtol (lead ++ (Nat.repr n).data ++ r) = ((n : Int), r) := by
  obtain ⟨ds, hds, hne, hall, hval⟩ := repr_spec n
  obtain ⟨d, t, rfl⟩ : ∃ d t, ds = d :: t := by
    cases ds with
    | nil => exact absurd rfl hne
    | cons d t => exact ⟨d, t, rfl⟩
  have hd := digitChar_facts d (hall d (by simp))
  have hdigits : ∀ c ∈ (d :: t).map Nat.digitChar, Char.isDigit c = true := by
    intro c hc
    obtain ⟨x, hx, rfl⟩ := List.mem_map.mp hc
    exact (digitChar_facts x (hall x hx)).2.1
  have hq : (lead ++ (Nat.repr n).data ++ r).dropWhile isspace =
      Nat.digitChar d :: (t.map Nat.digitChar ++ r) := by
    rw [List.append_assoc, dropWhile_append_all isspace lead _ hlead, hds]
    simp [List.dropWhile_cons, hd.1]
  have htake : (Nat.digitChar d :: (t.map Nat.digitChar ++ r)).takeWhile Char.isDigit =
      (d :: t).map Nat.digitChar := by
    have := takeWhile_append_all Char.isDigit ((d :: t).map Nat.digitChar) r hdigits
    rw [(stop_takeWhile r hstop).1, List.append_nil] at this
    simpa using this
  have hdrop : (Nat.digitChar d :: (t.map Nat.digitChar ++ r)).dropWhile Char.isDigit = r := by
    have := dropWhile_append_all Char.isDigit ((d :: t).map Nat.digitChar) r hdigits
    rw [(stop_takeWhile r hstop).2] at this
    simpa using this
  have hvalue : ((d :: t).map Nat.digitChar).foldl
      (fun acc c => acc * 10 + (c.toNat - 48)) 0 = n := by
    rw [foldl_digit_chars (d :: t) hall 0]
    exact hval
  unfold strtol
  simp only [hq]
  have hsr : (match Nat.digitChar d :: (t.map Nat.digitChar ++ r) with
      | '-' :: r' => (true, r')
      | '+' :: r' => (false, r')
      | _ => (false, Nat.digitChar d :: (t.map Nat.digitChar ++ r))) =
      (false, Nat.digitChar d :: (t.map Nat.digitChar ++ r)) := by
    split
    · rename_i heq
      simp only [List.cons.injEq] at heq
      exact absurd heq.1 hd.2.2.1
    · rename_i heq
      simp only [List.cons.injEq] at heq
      exact absurd heq.1 hd.2.2.2.1
    · rfl
  simp only [hsr, htake, hdrop, hvalue]
  have h1 : ¬ ((n : Int) > LONG_MAX) := by omega
  have h2 : ¬ ((n : Int) < LONG_MIN) := by
    have : LONG_MIN < 0 := by decide
    omega
  simp [h1, h2]

/-- On whitespace followed by nothing, or by a character that is neither whitespace nor a digit nor
a sign, `strtol` converts nothing. -/
theorem strtol_no_number (lead rest : List Char) (hlead : ∀ c ∈ lead, isspace c = true)
    (hrest : rest = [] ∨ ∃ c t, rest = c :: t ∧ isspace c = false ∧ c.isDigit = false ∧
      c ≠ '+' ∧ c ≠ '-') :
    strtol (lead ++ rest) = (0, lead ++ rest) := by
  unfold strtol
  rw [dropWhile_append_all isspace lead rest hlead]
  rcases hrest with rfl | ⟨c, t, rfl, h1, h2, h3, h4⟩
  · simp
  · have hsr : (match c :: t with
        | '-' :: r' => (true, r')
        | '+' :: r' => (false, r')
        | _ => (false, c :: t)) = (false, c :: t) := by
      split
      · rename_i heq
        simp only [List.cons.injEq] at heq
        exact absurd heq.1 h4
      · rename_i heq
        simp only [List.cons.injEq] at heq
        exact absurd heq.1 h3
      · rfl
    simp only [List.dropWhile_cons, h1, Bool.false_eq_true, if_false, hsr, List.takeWhile_cons, h2]
    simp

/-- Numbers below 2^31 survive the conversion to `GPid`. -/
theorem long_to_pid_small (n : Nat) (h : n < 2147483648) : long_to_pid (n : Int) = (n : Int) := by
  unfold long_to_pid
  omega

/-- A printed number has at least one character. -/
theorem repr_data_ne_nil (n : Nat) : (Nat.repr n).data ≠ [] := by
  obtain ⟨ds, hds, hne, _, _⟩ := repr_spec n
  rw [hds]
  simpa using hne

/-- The parsing loop on a printed PID list, with enough fuel for its length. -/
theorem parse_pids_loop_printed (rest : List Char)
    (hrest : rest = [] ∨ ∃ c t, rest = c :: t ∧ isspace c = false ∧ c.isDigit = false ∧
      c ≠ '+' ∧ c ≠ '-')
    (entries : List (Nat × List Char)) :
    ∀ (lead : List Char) (fuel : Nat),
      (∀ e ∈ entries, e.1 < 2147483648) →
      (∀ e ∈ entries, e.2 ≠ [] ∧ ∀ c ∈ e.2, isspace c = true) →
      (∀ c ∈ lead, isspace c = true) →
      (lead ++ print_pids entries ++ rest).length < fuel →
      parse_pids_loop fuel (lead ++ print_pids entries ++ rest) =
        entries.map (fun e => (e.1 : Int)) := by
  induction entries with
  | nil =>
    intro lead fuel _ _ hlead hfuel
    obtain ⟨f, rfl⟩ : ∃ f, fuel = f + 1 := ⟨fuel - 1, by omega⟩
    simp only [print_pids, List.append_nil, List.map_nil]
    unfold parse_pids_loop
    by_cases he : (lead ++ rest).isEmpty = true
    · simp [he]
    · simp only [he, Bool.false_eq_true, if_false, strtol_no_number lead rest hlead hrest]
      simp [long_to_pid]
  | cons e es ih =>
    intro lead fuel hpid hsep hlead hfuel
    obtain ⟨pid, sep⟩ := e
    obtain ⟨f, rfl⟩ : ∃ f, fuel = f + 1 := ⟨fuel - 1, by omega⟩
    have hp : pid < 2147483648 := hpid (pid, sep) (by simp)
    obtain ⟨hsne, hsall⟩ := hsep (pid, sep) (by simp)
    have hshape : lead ++ print_pids ((pid, sep) :: es) ++ rest =
        lead ++ (Nat.repr pid).data ++ (sep ++ print_pids es ++ rest) := by
      simp [print_pids, List.append_assoc]
    have hstop : ∀ c t, sep ++ print_pids es ++ rest = c :: t → c.isDigit = false := by
      intro c t hc
      cases sep with
      | nil => exact absurd rfl hsne
      | cons s0 s' =>
        simp only [List.cons_append, List.cons.injEq] at hc
        rw [← hc.1]
        exact isspace_not_digit s0 (hsall s0 (by simp))
    have hlong : (pid : Int) ≤ LONG_MAX := by
      have : LONG_MAX = 9223372036854775807 := rfl
      omega
    have hstr := strtol_number lead (sep ++ print_pids es ++ rest) pid hlead hstop hlong
    have hne := repr_data_ne_nil pid
    have hlen : (sep ++ print_pids es ++ rest).length <
        (lead ++ (Nat.repr pid).data ++ (sep ++ print_pids es ++ rest)).length := by
      have : 0 < (Nat.repr pid).data.length := List.length_pos.mpr hne
      simp only [List.length_append]
      omega
    rw [hshape] at hfuel ⊢
    unfold parse_pids_loop
    have hnonempty : (lead ++ (Nat.repr pid).data ++ (sep ++ print_pids es ++ rest)).isEmpty =
        false := by
      cases h : (lead ++ (Nat.repr pid).data ++ (sep ++ print_pids es ++ rest)) with
      | nil => rw [h] at hlen; simp at hlen
      | cons a b => rfl
    have hcond : ((sep ++ print_pids es ++ rest).length ==
          (lead ++ (Nat.repr pid).data ++ (sep ++ print_pids es ++ rest)).length) = false :=
      beq_eq_false_iff_ne.mpr (by omega)
    simp only [hnonempty, Bool.false_eq_true, if_false]
    rw [hstr]
    simp only []
    rw [hcond, Bool.and_false]
    simp only [Bool.false_eq_true, if_false, List.map_cons]
    rw [long_to_pid_small pid hp]
    congr 1
    exact ih sep f (fun e he => hpid e (by simp [he])) (fun e he => hsep e (by simp [he]))
      hsall (by omega)

/-- C19, counterexample: on "12ab 34" the parser returns [12] although the first token is not a
number; on "12 -5 +7" it returns the signed values as well; on "4294967297" it returns 1, the
value reduced to 32 bits. The list of numbers preceding the first non-numeric token is [], [12]
and [4294967297]. -/
theorem lsof_parser_differs_from_token_reading :
    parse_pids "12ab 34\n" = [12] ∧ spec_pid_list "12ab 34\n" = [] ∧
    parse_pids "12 -5 +7\n" = [12, -5, 7] ∧ spec_pid_list "12 -5 +7\n" = [12] ∧
    parse_pids "4294967297\n" = [1] ∧ spec_pid_list "4294967297\n" = [4294967297] := by
  decide

/-- C19, amended: for every list of process identifiers below 2^31, parsing their decimal
renderings, each followed by a non-empty run of whitespace (newlines included) and the whole
optionally preceded by whitespace, yields exactly that list in order; the same holds when the
text goes on with anything that starts with a character that is neither whitespace nor a digit
nor a sign: the result is the list of the numbers that precede it. The parser never runs out of
fuel on such a text. -/
theorem parse_pids_of_printed (entries : List (Nat × List Char)) (lead rest : List Char)
    (hpid : ∀ e ∈ entries, e.1 < 2147483648)
    (hsep : ∀ e ∈ entries, e.2 ≠ [] ∧ ∀ c ∈ e.2, isspace c = true)
    (hlead : ∀ c ∈ lead, isspace c = true)
    (hrest : rest = [] ∨ ∃ c t, rest = c :: t ∧ isspace c = false ∧ c.isDigit = false ∧
      c ≠ '+' ∧ c ≠ '-') :
    parse_pids (String.mk (lead ++ print_pids entries ++ rest)) =
      entries.map (fun e => (e.1 : Int)) := by
  unfold parse_pids
  exact parse_pids_loop_printed rest hrest entries lead _ hpid hsep hlead (by simp [String.length])

/-- Witness for C19: the output "1234\n5678\n" gives [1234, 5678]. -/
theorem parse_pids_of_printed_witness :
    parse_pids (String.mk ([] ++ print_pids [(1234, ['\n']), (5678, ['\n'])] ++ [])) =
      [1234, 5678] ∧
    String.mk ([] ++ print_pids [(1234, ['\n']), (5678, ['\n'])] ++ []) = "1234\n5678\n" :=
  ⟨parse_pids_of_printed [(1234, ['\n']), (5678, ['\n'])] [] [] (by decide) (by decide)
    (by decide) (Or.inl rfl), by decide⟩

/-- C20, failing input: after an "Unmount Anyway" reply to the first prompt the forced RPC and the
armed retry timer are both outstanding while the reference count is 1; and when the prompt is
aborted while a retry RPC is in flight, the count reaches zero and the context is released with
that RPC still outstanding, whose callback then runs on the released context. -/
theorem context_released_with_rpc_outstanding :
    (run_events sample_request
      [Event.unmount_finished (some sample_busy_error),
       Event.lsof_command_finished (SpawnResult.finished 0 "1234\n5678\n"),
       Event.mount_op_reply GMountOperationResult.HANDLED 0]).map
      (fun s => (s.data.ref_count, outstanding s, s.pending, s.timers, s.freed)) =
      some (1, 2, [Pending.unmount_rpc sample_filesystem], [2], false) ∧
    (run_events sample_request
      [Event.unmount_finished (some sample_busy_error),
       Event.lsof_command_finished (SpawnResult.finished 0 "1234\n5678\n"),
       Event.retry_timer,
       Event.mount_op_reply GMountOperationResult.ABORTED 0]).map
      (fun s => (s.data.ref_count, outstanding s, s.pending, s.freed)) =
      some (0, 1, [Pending.unmount_rpc sample_filesystem], true) ∧
    (run_events sample_request
      [Event.unmount_finished (some sample_busy_error),
       Event.lsof_command_finished (SpawnResult.finished 0 "1234\n5678\n"),
       Event.retry_timer,
       Event.mount_op_reply GMountOperationResult.ABORTED 0,
       Event.unmount_finished none]).map
      (fun s => s.log.getLast?) = some (some Effect.use_after_free) := by
  decide

/-! ## Identification assertion and UUID -/

/-- The assertion of the identification block fails in exactly one case: the block's object has no
filesystem interface, has an encrypted interface, and the client finds no cleartext block. -/
theorem identify_assertion_iff (w : World) (mount : GVfsUDisks2Mount)
    (enc : Option UDisksEncrypted) :
    identify w mount = Identified.assertion_failed enc ↔
      ∃ v block o e, mount.volume = some v ∧ w.volume_block v = some block ∧
        block.object = some o ∧ o.filesystem = none ∧ o.encrypted = some e ∧
        block.cleartext_block = none ∧ enc = some e := by
  constructor
  · intro h
    cases hv : mount.volume with
    | none => simp [identify, hv] at h
    | some v =>
      cases hb : w.volume_block v with
      | none => simp [identify, hv, hb] at h
      | some block =>
        cases ho : block.object with
        | none => simp [identify, hv, hb, ho] at h
        | some o =>
          cases hf : o.filesystem with
          | some fs => simp [identify, hv, hb, ho, hf] at h
          | none =>
            cases he : o.encrypted with
            | none => simp [identify, hv, hb, ho, hf, he] at h
            | some e =>
              cases hc : block.cleartext_block with
              | some co =>
                cases hcf : co.bind (fun c => c.filesystem) with
                | none =>
                  simp only [identify, hv, hb, ho, hf, he, hc] at h
                  rw [hcf] at h
                  cases h
                | some fs =>
                  simp only [identify, hv, hb, ho, hf, he, hc] at h
                  rw [hcf] at h
                  cases h
              | none =>
                simp only [identify, hv, hb, ho, hf, he, hc, Identified.assertion_failed.injEq] at h
                exact ⟨v, block, o, e, rfl, hb, ho, hf, he, hc, h.symm⟩
  · rintro ⟨v, block, o, e, hv, hb, ho, hf, he, hc, rfl⟩
    simp [identify, hv, hb, ho, hf, he, hc]

/-- When a block device is present and identification goes through, a filesystem handle has been
resolved. -/
theorem identify_ok_filesystem (w : World) (mount : GVfsUDisks2Mount) (v : VolumePtr)
    (block : UDisksBlock) (fs : Option UDisksFilesystem) (enc : Option UDisksEncrypted)
    (hv : mount.volume = some v) (hb : w.volume_block v = some block)
    (h : identify w mount = Identified.ok fs enc) : fs ≠ none := by
  cases ho : block.object with
  | none => simp [identify, hv, hb, ho] at h
  | some o =>
    cases hf : o.filesystem with
    | some f =>
      simp only [identify, hv, hb, ho, hf, Identified.ok.injEq] at h
      rw [← h.1]
      simp
    | none =>
      cases he : o.encrypted with
      | none => simp [identify, hv, hb, ho, hf, he] at h
      | some e =>
        cases hc : block.cleartext_block with
        | none => simp [identify, hv, hb, ho, hf, he, hc] at h
        | some co =>
          cases hcf : co.bind (fun c => c.filesystem) with
          | none =>
            simp only [identify, hv, hb, ho, hf, he, hc] at h
            rw [hcf] at h
            cases h
          | some f =>
            simp only [identify, hv, hb, ho, hf, he, hc] at h
            rw [hcf] at h
            simp only [Identified.ok.injEq] at h
            rw [← h.1]
            simp

/-- C21, failing input: the volume's block has a D-Bus object with an encrypted interface, no
filesystem interface and no cleartext block. Identification completes with no error, reaches
`g_assert (data->filesystem != NULL)` with no filesystem handle, and the assertion fails;
nothing is delivered. -/
theorem assertion_fails_on_locked_encrypted_block :
    sample_mount_sys.mount.is_burn_mount = false ∧
    sample_mount_sys.mount.volume = some 1 ∧
    sample_locked_world.volume_block 1 = some ⟨some ⟨none, some sample_encrypted⟩, none⟩ ∧
    identify sample_locked_world sample_mount_sys.mount =
      Identified.assertion_failed (some sample_encrypted) ∧
    (gvfs_udisks2_mount_unmount_with_operation sample_locked_world sample_mount_sys.mount 0
      (some sample_operation) none).log = [Effect.pre_unmount, Effect.assertion_failed] ∧
    (gvfs_udisks2_mount_unmount_with_operation sample_locked_world sample_mount_sys.mount 0
      (some sample_operation) none).data.filesystem = none ∧
    deliveries (gvfs_udisks2_mount_unmount_with_operation sample_locked_world
      sample_mount_sys.mount 0 (some sample_operation) none).log = [] := by
  decide

/-- C22: for every mount returned by `gvfs_udisks2_mount_new` and every sequence of later
operations, `gvfs_udisks2_mount_get_uuid` returns no value, and `gvfs_udisks2_mount_has_uuid
(mount, u)` is true if and only if u is absent, so it is false for every actual UUID string. -/
theorem uuid_never_assigned (w : World) (monitor : Nat) (mount_entry : Option GUnixMountEntry)
    (volume : Option VolumePtr) (now : Int) (s : MountSys) (ops : List MountOp)
    (h : gvfs_udisks2_mount_new w monitor mount_entry volume now = some s) :
    gvfs_udisks2_mount_get_uuid (s.run ops).mount = none ∧
    (∀ uuid : Option String,
      gvfs_udisks2_mount_has_uuid (s.run ops).mount uuid = true ↔ uuid = none) ∧
    (∀ uuid : String, gvfs_udisks2_mount_has_uuid (s.run ops).mount (some uuid) = false) := by
  have hs : s.mount.uuid = none := by
    unfold gvfs_udisks2_mount_new at h
    split at h
    · exact absurd h (by simp)
    · simp only [Option.some.injEq] at h
      subst h
      cases volume <;> cases mount_entry <;>
        simp [MountSys.update, update_mount, gvfs_udisks2_mount_init]
  have hr := constructed_fields_run ops s
  simp only [constructed_fields, Prod.mk.injEq] at hr
  have hu : (s.run ops).mount.uuid = none := hr.2.2.2.1.trans hs
  refine ⟨hu, fun uuid => ?_, fun uuid => ?_⟩
  · simp only [gvfs_udisks2_mount_has_uuid, hu, g_strcmp0_eq_zero, decide_eq_true_eq]
    exact eq_comm
  · simp [gvfs_udisks2_mount_has_uuid, hu, g_strcmp0_eq_zero]

/-- Witness for C22: the sample mount after a probe completion and an unmount notification. -/
theorem uuid_never_assigned_witness :
    gvfs_udisks2_mount_new sample_world 0 (some sample_entry) (some 1) 1000 =
      some sample_mount_sys ∧
    gvfs_udisks2_mount_get_uuid
      (sample_mount_sys.run [MountOp.got_xdg none (some "Disc"), MountOp.unmounted]).mount =
      none ∧
    gvfs_udisks2_mount_has_uuid
      (sample_mount_sys.run [MountOp.got_xdg none (some "Disc"), MountOp.unmounted]).mount
      (some "1234-ABCD") = false :=
  ⟨rfl,
    (uuid_never_assigned sample_world 0 (some sample_entry) (some 1) 1000 sample_mount_sys
      [MountOp.got_xdg none (some "Disc"), MountOp.unmounted] rfl).1,
    (uuid_never_assigned sample_world 0 (some sample_entry) (some 1) 1000 sample_mount_sys
      [MountOp.got_xdg none (some "Disc"), MountOp.unmounted] rfl).2.2 "1234-ABCD"⟩

/-! ## A prompt reply while the lock RPC is in flight -/

/-- C10, failing input: on the encrypted sample volume the first unmount RPC fails busy, the prompt
is shown and the retry timer issues a second RPC. That RPC succeeds: the lock RPC is issued on
the encrypted handle with an empty options map and nothing is delivered yet. While the lock RPC is in flight the
prompt, which is still connected, replies Aborted: FAILED_HANDLED is delivered as the terminal
result and the context is released with the lock RPC outstanding. When the lock RPC completes,
`lock_cb` runs on the released context and the lock's result is never delivered. -/
theorem reply_overtakes_lock_trace :
    (run_events sample_encrypted_request
      [Event.unmount_finished (some sample_busy_error),
       Event.lsof_command_finished (SpawnResult.finished 0 "1234\n5678\n"),
       Event.retry_timer]).map
      (fun s => (s.data.completed, s.data.encrypted, first_unmount_rpc s.pending, s.handlers)) =
      some (false, some sample_encrypted, some sample_filesystem, [1]) ∧
    (run_events sample_encrypted_request
      [Event.unmount_finished (some sample_busy_error),
       Event.lsof_command_finished (SpawnResult.finished 0 "1234\n5678\n"),
       Event.retry_timer,
       Event.unmount_finished none]).map
      (fun s => (deliveries s.log, s.pending, s.log.getLast?)) =
      some ([], [Pending.lock_rpc sample_encrypted],
            some (Effect.call_lock sample_encrypted [])) ∧
    (run_events sample_encrypted_request
      [Event.unmount_finished (some sample_busy_error),
       Event.lsof_command_finished (SpawnResult.finished 0 "1234\n5678\n"),
       Event.retry_timer,
       Event.unmount_finished none,
       Event.mount_op_reply GMountOperationResult.ABORTED 0]).map
      (fun s => ((deliveries s.log).map (fun r => r.map GError.code), s.pending, s.freed)) =
      some ([some G_IO_ERROR_FAILED_HANDLED], [Pending.lock_rpc sample_encrypted], true) ∧
    (run_events sample_encrypted_request
      [Event.unmount_finished (some sample_busy_error),
       Event.lsof_command_finished (SpawnResult.finished 0 "1234\n5678\n"),
       Event.retry_timer,
       Event.unmount_finished none,
       Event.mount_op_reply GMountOperationResult.ABORTED 0,
       Event.lock_finished none]).map
      (fun s => ((deliveries s.log).map (fun r => r.map GError.code), s.log.getLast?)) =
      some ([some G_IO_ERROR_FAILED_HANDLED], some Effect.use_after_free) := by
  refine ⟨by decide, by decide, by decide, by decide⟩

end GVfsUDisks2
